import Mathlib

/-!
# Verification development for `project-backend`

A shallow embedding of the bootstrap, retry and shutdown logic of the
repository (`util/retryOperation.go`, `config/config.go`,
`database/database.go`, `database/postgres.go`, `api/api.go`, `main/main.go`)
together with theorems about it.

Conventions of the embedding:

* a Go `error` result is an `Option`: `none` is `nil`;
* Go's fixed-width integers are `Int`/`Nat` with explicit wrap-around
  (`wrapInt64`, `wrapInt32`) at the places where the source converts or
  multiplies;
* calls into libraries that are not part of the repository (pgx, echo,
  cleanenv, the OS) are fields of an explicit environment, and the choice a
  `select` statement makes is an oracle of that environment;
* every function returns, next to its result, the ordered list of the
  observable steps it took.
-/

set_option autoImplicit false

/-! ## Machine integers -/

/-- Two's-complement wrap of an integer into the range of Go's `int64`
(`time.Duration` is an `int64` count of nanoseconds). -/
def wrapInt64 (x : Int) : Int := (x + 2 ^ 63) % 2 ^ 64 - 2 ^ 63

/-- Two's-complement wrap of an integer into the range of Go's `int32`:
the conversion `int32(x)`. -/
def wrapInt32 (x : Int) : Int := (x + 2 ^ 31) % 2 ^ 32 - 2 ^ 31

/-- The constant `time.Millisecond`, in nanoseconds. -/
def Millisecond : Int := 1000000

/-- The constant `time.Second`, in nanoseconds. -/
def Second : Int := 1000000000

/-! ## Errors built by `fmt.Errorf` -/

/-- One layer of an error value built by `fmt.Errorf` around errors of type `ε`:
without a `%w` operand the result is a plain string error, with one it wraps
the operand. -/
inductive FmtError (ε : Type) where
  | errorString (s : String)
  | wrapError (msg : String) (err : ε)
  deriving DecidableEq, Repr

namespace FmtError

variable {ε : Type}

/-- The method `Error()`. -/
def Error : FmtError ε → String
  | errorString s => s
  | wrapError msg _ => msg

/-- The function `errors.Unwrap`. -/
def Unwrap : FmtError ε → Option ε
  | errorString _ => none
  | wrapError _ err => some err

end FmtError

namespace util

variable {σ ε : Type}

/-- Observable steps of one call of `RetryOperation`. -/
inductive RetryEvent (ε : Type) where
  /-- The call `operation()`, which returned `result`. -/
  | invoke (result : Option ε)
  /-- The call `logger.Error("Operation failed, retrying", ...)`. -/
  | logError (attempt : Int) (error : String) (delay : Int)
  /-- The case `<-time.After(delay)` of the `select`: the whole delay was waited. -/
  | timer (delay : Int)
  /-- The case `<-ctx.Done()` of the `select`. -/
  | ctxDone
  deriving DecidableEq, Repr

/-- What a call of `RetryOperation` leaves behind: the returned error, the
state of whatever the operation closes over, and the steps taken. -/
structure RetryRun (σ ε : Type) where
  err : Option (FmtError ε)
  state : σ
  trace : List (RetryEvent ε)

/-- The error `fmt.Errorf("context has cancelled, cancelling operation")`. -/
def cancelledError : FmtError ε :=
  .errorString "context has cancelled, cancelling operation"

/-- The error
`fmt.Errorf("operation failed after %d attempts. Last error: %w", attempts, err)`.
With a nil `err` the verb `%w` has no error operand: the text shows
`%!w(<nil>)` and nothing is wrapped. -/
def failedAfterError (Error : ε → String) (attempts : Int) : Option ε → FmtError ε
  | some e =>
    .wrapError ("operation failed after " ++ toString attempts ++ " attempts. Last error: "
      ++ Error e) e
  | none =>
    .errorString ("operation failed after " ++ toString attempts
      ++ " attempts. Last error: %!w(<nil>)")

/-- The loop `for i := range attempts` of `RetryOperation`, with `remaining`
iterations left, loop index `i`, the current `delay`, the variable `err` and
the state `s` of the operation. `ctxDone i` tells whether the `select` of
iteration `i` takes the `<-ctx.Done()` case. -/
def retryLoop (operation : σ → Option ε × σ) (Error : ε → String) (ctxDone : Nat → Bool)
    (attempts : Int) : Nat → Nat → Int → Option ε → σ → RetryRun σ ε
  | 0, _, _, err, s => ⟨some (failedAfterError Error attempts err), s, []⟩
  | remaining + 1, i, delay, _, s =>
    match operation s with
    | (none, s') => ⟨none, s', [.invoke none]⟩
    | (some e, s') =>
      if ctxDone i then
        ⟨some cancelledError, s',
          [.invoke (some e), .logError ((i : Int) + 1) (Error e) delay, .ctxDone]⟩
      else
        let rest := retryLoop operation Error ctxDone attempts remaining (i + 1)
          (wrapInt64 (delay * 2)) (some e) s'
        ⟨rest.err, rest.state,
          [.invoke (some e), .logError ((i : Int) + 1) (Error e) delay, .timer delay]
            ++ rest.trace⟩

/-- The function `RetryOperation(ctx, logger, operation, attempts, delay)`.
`attempts` is a Go `int`; ranging over a non-positive `int` runs no iteration. -/
def RetryOperation (operation : σ → Option ε × σ) (Error : ε → String) (ctxDone : Nat → Bool)
    (attempts : Int) (delay : Int) (s : σ) : RetryRun σ ε :=
  retryLoop operation Error ctxDone attempts attempts.toNat 0 delay none s

/-- Number of invocations of the operation in a trace. -/
def calls : List (RetryEvent ε) → Nat
  | [] => 0
  | .invoke _ :: t => calls t + 1
  | _ :: t => calls t

/-- The delays that were waited in full, in order. -/
def waits : List (RetryEvent ε) → List Int
  | [] => []
  | .timer d :: t => d :: waits t
  | _ :: t => waits t

/-- State of the operation after `n` invocations starting from `s`. -/
def stateAfter (operation : σ → Option ε × σ) (s : σ) : Nat → σ
  | 0 => s
  | n + 1 => (operation (stateAfter operation s n)).2

/-- Result of invocation number `n + 1` of the operation, starting from `s`. -/
def resultAt (operation : σ → Option ε × σ) (s : σ) (n : Nat) : Option ε :=
  (operation (stateAfter operation s n)).1

/-- The delay after `n` doublings `delay *= 2` on a `time.Duration`. -/
def delayAt (delay : Int) : Nat → Int
  | 0 => delay
  | n + 1 => wrapInt64 (delayAt delay n * 2)

/-- An operation that fails with the error `"ErrX"` on its first `n`
invocations and succeeds afterwards; its state counts the invocations made. -/
def failFirst (n : Nat) (count : Nat) : Option String × Nat :=
  if count < n then (some "ErrX", count + 1) else (none, count + 1)

/-- An operation that fails with the error `"ErrX"` on every invocation; its
state counts the invocations made. -/
def alwaysFail (count : Nat) : Option String × Nat := (some "ErrX", count + 1)

end util

/-! ## Error values of the rest of the program -/

/-- A Go `error` value: either one created outside the repository (a library
or OS error, identified by where it comes from and its text), or one built
with `fmt.Errorf` / `errors.New` inside it. -/
inductive GoError where
  | ext (origin : String) (msg : String)
  | errorString (s : String)
  | wrapError (msg : String) (err : GoError)
  deriving DecidableEq, Repr

namespace GoError

/-- The method `Error()`. -/
def Error : GoError → String
  | ext _ msg => msg
  | errorString s => s
  | wrapError msg _ => msg

/-- The function `errors.Unwrap`. -/
def Unwrap : GoError → Option GoError
  | wrapError _ err => some err
  | _ => none

/-- An error built by `fmt.Errorf` around a `GoError`, as a `GoError`. -/
def ofFmt : FmtError GoError → GoError
  | .errorString s => errorString s
  | .wrapError msg err => wrapError msg err

/-- The call `fmt.Errorf(pfx + "%w", err)` for a non-nil `err`. -/
def wrapf (pfx : String) (err : GoError) : GoError :=
  wrapError (pfx ++ err.Error) err

end GoError

/-! ## Package `config` -/

namespace config

/-- The anonymous struct of the field `Config.CfgPaths`. -/
structure CfgPaths where
  EnvPath : String
  CfgPath : String
  deriving DecidableEq, Repr

/-- The anonymous struct of the field `Config.Server`; `Port` is a `uint16`. -/
structure Server where
  DevMode : Bool
  Port : Nat
  Host : String
  LogFile : String
  CertFile : String
  KeyFile : String
  deriving DecidableEq, Repr

/-- The anonymous struct of the field `Config.Database`; the field `Type` of
the source is `DbType` here, `ConnPoolSize` is a Go `int`, `Port` a `uint16`. -/
structure Database where
  Host : String
  DbType : String
  User : String
  Password : String
  DBName : String
  ConnPoolSize : Int
  Port : Nat
  deriving DecidableEq, Repr

/-- The anonymous struct of the field `Config.Router` (durations in nanoseconds). -/
structure Router where
  ReadTimeout : Int
  WriteTimeout : Int
  deriving DecidableEq, Repr

/-- The anonymous struct of the field `Config.Logto`. -/
structure Logto where
  Endpoint : String
  AppID : String
  AppSecret : String
  deriving DecidableEq, Repr

/-- The struct `Config`. -/
structure Config where
  CfgPaths : CfgPaths
  Server : Server
  Database : Database
  Router : Router
  Logto : Logto
  deriving DecidableEq, Repr

/-- The zero value of `Config` (`var srv Server` in `run`). -/
def Config.zero : Config :=
  ⟨⟨"", ""⟩, ⟨false, 0, "", "", "", ""⟩, ⟨"", "", "", "", "", 0, 0⟩, ⟨0, 0⟩, ⟨"", "", ""⟩⟩

/-- The process environment: the value of each variable that is set. -/
abbrev OsEnv := String → Option String

/-- The function `os.Getenv`: the empty string for an unset variable. -/
def Getenv (vars : OsEnv) (key : String) : String := (vars key).getD ""

/-- The library and OS calls made by package `config`. -/
structure Externals where
  /-- The call `godotenv.Load(path)`: the process environment after it, and its error. -/
  godotenvLoad : String → OsEnv → OsEnv × Option GoError
  /-- The call `cleanenv.ReadEnv(cfg)`: the struct after it, and its error. -/
  ReadEnv : OsEnv → Config → Config × Option GoError
  /-- The call `cleanenv.ReadConfig(path, cfg)`: the struct after it, and its error. -/
  ReadConfig : String → OsEnv → Config → Config × Option GoError
  /-- Whether `net.ParseIP(host)` is non-nil. -/
  ParseIP : String → Bool

/-- The function `LoadConfig(servCfg)`: the struct and the process environment
after the call, the returned error, and the warning about the `.env` file if
one was printed with `log.Printf`. -/
def LoadConfig (x : Externals) (vars : OsEnv) (servCfg : Config) :
    Config × OsEnv × Option GoError × Option String :=
  let envPath := if Getenv vars "ENV_PATH" = "" then "config.env" else Getenv vars "ENV_PATH"
  let loaded := x.godotenvLoad envPath vars
  let vars1 := loaded.1
  let warned := loaded.2.map fun err =>
    "Warning: could not load .env file " ++ envPath ++ ": " ++ err.Error
  match x.ReadEnv vars1 servCfg with
  | (cfg1, some err) =>
    (cfg1, vars1, some (.errorString ("could not read env variables: " ++ err.Error)), warned)
  | (cfg1, none) =>
    let cfgPath := Getenv vars1 "CFG_PATH"
    let cfg2 : Config := { cfg1 with CfgPaths := ⟨envPath, cfgPath⟩ }
    if cfgPath ≠ "" then
      match x.ReadConfig cfgPath vars1 cfg2 with
      | (cfg3, some err) =>
        (cfg3, vars1,
          some (.wrapError ("could not read config file at " ++ cfgPath ++ ": " ++ err.Error) err),
          warned)
      | (cfg3, none) => (cfg3, vars1, none, warned)
    else (cfg2, vars1, none, warned)

/-- The function `ValidateAddress(port, host)`. -/
def ValidateAddress (ParseIP : String → Bool) (port : Nat) (host : String) : Option GoError :=
  if port < 1024 ∨ port > 49151 then
    some (.errorString ("port number " ++ toString port ++ " is not a valid port"))
  else if ParseIP host = false ∧ host ≠ "localhost" then
    some (.errorString ("given host address: " ++ host ++ " is not valid"))
  else none

/-- The method `(c *Config) Validate()`. -/
def Config.Validate (ParseIP : String → Bool) (c : Config) : Option GoError :=
  match ValidateAddress ParseIP c.Server.Port c.Server.Host with
  | some err => some err
  | none => none

/-- The configuration given by the `env-default` tags of the struct `Config`
(`CfgPaths` as `LoadConfig` fills it when neither variable is set). -/
def Config.default : Config :=
  { CfgPaths := ⟨"config.env", ""⟩
    Server := ⟨true, 7777, "localhost", "/var/log/junkyard.log", "/some/where/secure",
      "/some/where/secure"⟩
    Database := ⟨"storage", "postgres", "postgres", "password", "database", 20, 5432⟩
    Router := ⟨5 * Second, 5 * Second⟩
    Logto := ⟨"", "", ""⟩ }

/-- An environment of package `config` for examples: no variable is set, the
`.env` file loads, `cleanenv.ReadEnv` fills the struct with `filled`, and
`net.ParseIP` accepts `127.0.0.1` only. -/
def Externals.fills (filled : Config) : Externals :=
  { godotenvLoad := fun _ vars => (vars, none)
    ReadEnv := fun _ _ => (filled, none)
    ReadConfig := fun _ _ cfg => (cfg, none)
    ParseIP := fun host => decide (host = "127.0.0.1") }

end config

/-! ## Observable steps -/

/-- Levels of the zap logger. -/
inductive Level where
  | debug
  | info
  | warn
  | error
  deriving DecidableEq, Repr

/-- A `*zap.Logger`: the context fields attached to it with `With`. -/
abbrev Logger := List (String × String)

/-- A `context.Context` as the program builds it. -/
inductive Context where
  | Background
  | NotifyContext (parent : Context) (signals : List String)
  | WithTimeout (parent : Context) (timeout : Int)
  deriving DecidableEq, Repr

/-- The observable steps of the program: log lines, calls of the functions of
the repository, calls into libraries and the OS, channel receives. -/
inductive Step where
  /-- A line printed with the standard `log` package. -/
  | stdLog (msg : String)
  /-- A line logged with a zap logger (`logger` is nil when `none`). -/
  | zapLog (logger : Option Logger) (level : Level) (msg : String)
      (fields : List (String × String))
  | LoadConfig
  | Validate
  | NotifyContext
  | startLogger
  | OpenFile (path : String)
  | Build (development : Bool) (outputPaths : List String)
  | RetryOperation (attempts : Int) (delay : Int)
  | retry (e : util.RetryEvent GoError)
  | StartStorage
  | ParseConfig (connString : String)
  | NewWithConfig (connString : String) (MaxConns : Int)
  | Ping
  | InitRouter
  | Getrlimit
  | Setrlimit (Cur : Nat) (Max : Nat)
  | Use (middleware : String)
  | GET (path : String)
  /-- The goroutine that calls `echoRouter.Start(addr)` was launched. -/
  | goStart (addr : String)
  /-- The goroutine that calls `echoRouter.StartAutoTLS(addr)` was launched. -/
  | goStartAutoTLS (addr : String)
  | WithTimeout (timeout : Int)
  /-- The `select` of `run` received `err` from the channel `serverErrors`. -/
  | recvServerErrors (err : Option GoError)
  /-- The `select` of `run` received from `ctx.Done()`. -/
  | recvCtxDone
  | Shutdown (ctx : Context)
  | Close
  | CloseConns
  | CacheClose
  | Sync
  | logfileClose
  | cancel
  | stop
  /-- A run-time panic (nil dereference). -/
  | panicked (msg : String)
  deriving DecidableEq, Repr

/-! ## Package `database` -/

namespace database

open config

/-- The part of a `*pgxpool.Config` the program touches. -/
structure PoolConfig where
  ConnString : String
  MaxConns : Int
  deriving DecidableEq, Repr

/-- A `*pgxpool.Pool`, identified by the configuration it was created with. -/
structure Pool where
  config : PoolConfig
  deriving DecidableEq, Repr

/-- The struct `pgAccountHandler`. -/
structure pgAccountHandler where
  pool : Pool
  deriving DecidableEq, Repr

/-- The struct `pgEventHandler`. -/
structure pgEventHandler where
  pool : Pool
  deriving DecidableEq, Repr

/-- The struct `pgSocialHandler`. -/
structure pgSocialHandler where
  pool : Pool
  deriving DecidableEq, Repr

/-- The struct `pgMapHandler`. -/
structure pgMapHandler where
  pool : Pool
  deriving DecidableEq, Repr

/-- A value of the interface `GracefulShutdown`: what its method `CloseConns`
returns. The repository has no type that implements the interface. -/
structure GracefulShutdown where
  CloseConns : Option GoError
  deriving DecidableEq, Repr

/-- A value of the interface `KeyValCache`: what its method `Close` returns.
The repository has no type that implements the interface. -/
structure KeyValCache where
  Close : Option GoError
  deriving DecidableEq, Repr

/-- The anonymous struct of the field `Storage.Conns`. Each field is an
interface value, `none` being the nil interface; the four operation sets are
implemented by the `pg...Handler` structs only. -/
structure Conns where
  Close : Option GracefulShutdown
  AccTableOps : Option pgAccountHandler
  EvTableOps : Option pgEventHandler
  SocialTableOps : Option pgSocialHandler
  MapTableOps : Option pgMapHandler
  deriving DecidableEq, Repr

/-- The struct `Storage`. -/
structure Storage where
  Conns : Conns
  Cache : Option KeyValCache
  logger : Option Logger
  deriving DecidableEq, Repr

/-- The zero value of `Storage`, which `new(database.Storage)` points to. -/
def Storage.zero : Storage := ⟨⟨none, none, none, none, none⟩, none, none⟩

/-- The calls into `pgxpool` made by package `database`. -/
structure Externals where
  /-- The call `pgxpool.ParseConfig(connStr)`. -/
  ParseConfig : String → Except GoError PoolConfig
  /-- The error of the call `pgxpool.NewWithConfig(ctx, poolCfg)`. -/
  NewWithConfig : PoolConfig → Option GoError
  /-- The call `connPool.Ping(ctx)`. -/
  Ping : Pool → Option GoError

/-- The connection string `fmt.Sprintf("postgres://%s:%s@%s:%d/%s", ...)`. -/
def connStr (cfg : Config) : String :=
  "postgres://" ++ cfg.Database.User ++ ":" ++ cfg.Database.Password ++ "@"
    ++ cfg.Database.Host ++ ":" ++ toString cfg.Database.Port ++ "/" ++ cfg.Database.DBName

/-- The function `startPostgres(ctx, cfg, stg)`: the storage struct after the
call, the returned error and the steps taken. The storage struct is taken to
carry a logger, as it does in the one call of the function, from
`StartStorage`. With a nil `stg.logger` the source panics at its first log
call; the definition does not model that panic, and the theorems about the
pool size are stated through `StartStorage`. -/
def startPostgres (x : Externals) (cfg : Config) (stg : Storage) :
    Storage × Option GoError × List Step :=
  match x.ParseConfig (connStr cfg) with
  | .error err =>
    (stg, some (.wrapf "error parsing connection string: " err), [.ParseConfig (connStr cfg)])
  | .ok poolCfg0 =>
    let sized : PoolConfig × List Step :=
      if cfg.Database.ConnPoolSize = 0 then
        ({ poolCfg0 with MaxConns := 20 },
          [.zapLog stg.logger .warn
            "DB connection max pool size not set, setting max to default value of 20" []])
      else ({ poolCfg0 with MaxConns := wrapInt32 cfg.Database.ConnPoolSize }, [])
    let poolCfg := sized.1
    let pre : List Step :=
      [.ParseConfig (connStr cfg)] ++ sized.2
        ++ [.NewWithConfig poolCfg.ConnString poolCfg.MaxConns]
    match x.NewWithConfig poolCfg with
    | some err => (stg, some (.wrapf "error creating DB connection pool: " err), pre)
    | none =>
      let connPool : Pool := ⟨poolCfg⟩
      let pre2 := pre ++ [.zapLog stg.logger .info "DB connection pool created" [], .Ping]
      match x.Ping connPool with
      | some err =>
        (stg,
          some (.wrapf "connection to DB not established, ping query to DB failed: " err),
          pre2)
      | none =>
        ({ stg with Conns := { stg.Conns with
              AccTableOps := some ⟨connPool⟩
              EvTableOps := some ⟨connPool⟩
              SocialTableOps := some ⟨connPool⟩
              MapTableOps := some ⟨connPool⟩ } },
          none,
          pre2 ++ [.zapLog stg.logger .info "Connection to DB established" []])

/-- The function `StartStorage(ctx, cfg, storage, parentLogger)`: the storage
struct after the call, the returned error and the steps taken. -/
def StartStorage (x : Externals) (cfg : Config) (storage : Storage) (parentLogger : Logger) :
    Storage × Option GoError × List Step :=
  let dbLogger : Logger := parentLogger ++ [("component", "database")]
  let storage1 : Storage := { storage with logger := some dbLogger }
  let pre : List Step :=
    [.StartStorage,
      .zapLog (some dbLogger) .info "Database logger initialized, creating DB connection pool" [],
      .zapLog (some dbLogger) .info ("Database type: " ++ cfg.Database.DbType) []]
  if cfg.Database.DbType = "postgres" ∨ cfg.Database.DbType = "sql" then
    match startPostgres x cfg storage1 with
    | (storage2, some err, steps) =>
      (storage2, some (.wrapf "could not start the DB: " err), pre ++ steps)
    | (storage2, none, steps) =>
      (storage2, none,
        pre ++ steps ++ [.zapLog (some dbLogger) .warn "Cache has not yet been implemented" []])
  else
    (storage1,
      some (.errorString ("database of type " ++ cfg.Database.DbType ++ " is unsupported")),
      pre)

/-- An environment of package `database` for examples: the connection string
parses (to a configuration with 4 connections), the pool is created and the
ping succeeds. -/
def Externals.healthy : Externals :=
  { ParseConfig := fun connString => .ok ⟨connString, 4⟩
    NewWithConfig := fun _ => none
    Ping := fun _ => none }

/-- The values of `MaxConns` handed to `pgxpool.NewWithConfig`, in order. -/
def maxConnsSet : List Step → List Int
  | [] => []
  | .NewWithConfig _ n :: t => n :: maxConnsSet t
  | _ :: t => maxConnsSet t

end database

/-! ## Package `api` -/

namespace api

open config database

/-- The struct `handlers.AccountHandler`. -/
structure AccountHandler where
  DB : Option pgAccountHandler
  Logger : Logger
  deriving DecidableEq, Repr

/-- The struct `handlers.SocialHandler`. -/
structure SocialHandler where
  DB : Option pgSocialHandler
  Logger : Logger
  deriving DecidableEq, Repr

/-- The struct `handlers.EventHandler`. -/
structure EventHandler where
  DB : Option pgEventHandler
  Logger : Logger
  deriving DecidableEq, Repr

/-- The struct `handlers.MapHandler`. -/
structure MapHandler where
  DB : Option pgMapHandler
  Logger : Logger
  deriving DecidableEq, Repr

/-- The struct `RequestHandler`. -/
structure RequestHandler where
  AccountReqs : AccountHandler
  SocialReqs : SocialHandler
  EventReqs : EventHandler
  MapReqs : MapHandler
  deriving DecidableEq, Repr

/-- The function `NewRequestHandler(db, logger)`. -/
def NewRequestHandler (db : Storage) (logger : Logger) : RequestHandler :=
  ⟨⟨db.Conns.AccTableOps, logger⟩, ⟨db.Conns.SocialTableOps, logger⟩,
    ⟨db.Conns.EvTableOps, logger⟩, ⟨db.Conns.MapTableOps, logger⟩⟩

/-- The struct `syscall.Rlimit`; both fields are `uint64`. -/
structure Rlimit where
  Cur : Nat
  Max : Nat
  deriving DecidableEq, Repr

/-- The system calls made by package `api`. -/
structure Externals where
  /-- The call `syscall.Getrlimit(syscall.RLIMIT_NOFILE, &rLimit)`. -/
  Getrlimit : Except GoError Rlimit
  /-- The call `syscall.Setrlimit(syscall.RLIMIT_NOFILE, &rLimit)`. -/
  Setrlimit : Rlimit → Option GoError

/-- An `*echo.Echo` router: the middleware installed with `Use` and the routes
registered with `GET`, in order. -/
structure Echo where
  middleware : List String
  routes : List String
  deriving DecidableEq, Repr

/-- The router `echo.New()`. -/
def Echo.New : Echo := ⟨[], []⟩

/-- The struct `client.LogtoConfig`, as far as `initLogtoCfg` fills it. -/
structure LogtoConfig where
  Endpoint : String
  AppId : String
  AppSecret : String
  deriving DecidableEq, Repr

/-- The function `initSessionStore(e, devMode)`. -/
def initSessionStore (e : Echo) (devMode : Bool) : Echo × Option GoError × List Step :=
  if devMode then
    ({ e with middleware := e.middleware ++ ["session"] }, none, [.Use "session"])
  else
    (e, some (.errorString
      "trying to initialise session store in prod mode but Cache hasn't been implemented yet"),
      [])

/-- The function `initLogtoCfg(cfg)`. -/
def initLogtoCfg (cfg : Config) : LogtoConfig :=
  ⟨cfg.Logto.Endpoint, cfg.Logto.AppID, cfg.Logto.AppSecret⟩

/-- The function `setUpRoutes(e, rh, logtoCfg, logger)`, which installs the
request logger middleware and two routes and always returns nil. -/
def setUpRoutes (e : Echo) (_rh : RequestHandler) (_logtoCfg : LogtoConfig) (_logger : Logger) :
    Echo × Option GoError × List Step :=
  ({ middleware := e.middleware ++ ["RequestLogger"], routes := e.routes ++ ["/", "account/login"] },
    none, [.Use "RequestLogger", .GET "/", .GET "account/login"])

/-- The function `InitRouter(ctx, db, cfg, logger)`: the router, the returned
error and the steps taken. -/
def InitRouter (x : Externals) (db : Storage) (cfg : Config) (logger : Logger) :
    Echo × Option GoError × List Step :=
  let e := Echo.New
  let rh := NewRequestHandler db logger
  let pre : List Step :=
    [.InitRouter,
      .zapLog (some logger) .info "Setting max n° of file descriptors to hardware limit / 2" [],
      .Getrlimit]
  match x.Getrlimit with
  | .error err => (e, some (.wrapf "error getting number of open files: " err), pre)
  | .ok rLimit0 =>
    let rLimit : Rlimit := { rLimit0 with Cur := rLimit0.Max / 2 }
    let pre1 := pre ++
      [.zapLog (some logger) .info
          ("Setting max number of open files to " ++ toString (rLimit0.Max / 2)) [],
        .Setrlimit rLimit.Cur rLimit.Max]
    match x.Setrlimit rLimit with
    | some err => (e, some (.wrapf "error changing max number of open files: " err), pre1)
    | none =>
      let pre2 := pre1 ++
        [.zapLog (some logger) .info "Max number of open files has been updated" []]
      match initSessionStore e cfg.Server.DevMode with
      | (e1, some err, steps) => (e1, some err, pre2 ++ steps)
      | (e1, none, steps) =>
        let logtoCfg := initLogtoCfg cfg
        match setUpRoutes e1 rh logtoCfg logger with
        | (e2, some err, steps2) =>
          (e2, some (.errorString ("router failed to set up routes: " ++ err.Error)),
            pre2 ++ steps ++ steps2)
        | (e2, none, steps2) => (e2, none, pre2 ++ steps ++ steps2)

/-- An environment of package `api` for examples: the limits read are a soft
limit of 1024 and a hard limit of 1048576, and setting the limit succeeds. -/
def Externals.healthy : Externals :=
  { Getrlimit := .ok ⟨1024, 1048576⟩
    Setrlimit := fun _ => none }

end api

/-! ## Package `main` -/

namespace main

open config database api

/-- The sentinel `http.ErrServerClosed`. -/
def ErrServerClosed : GoError := .ext "net/http" "http: Server closed"

/-- The case the `select` of `run` takes: a value received from the channel
`serverErrors`, or `ctx.Done()` (an interrupt or termination signal). -/
inductive Trigger where
  | serverErrors (err : Option GoError)
  | ctxDone
  deriving DecidableEq, Repr

/-- Everything outside the repository that one execution of `run` meets. -/
structure World where
  /-- The process environment at start. -/
  vars : OsEnv
  config : config.Externals
  database : database.Externals
  api : api.Externals
  /-- The error of `os.OpenFile(path, ...)`. -/
  OpenFile : String → Option GoError
  /-- The error of `config.Build()` of the zap configuration. -/
  Build : Bool → List String → Option GoError
  /-- The error of `logger.Sync()`. -/
  Sync : Option GoError
  /-- The error of `logfile.Close()`. -/
  logfileClose : Option GoError
  /-- Whether the `select` of iteration `i` of `RetryOperation` takes `ctx.Done()`. -/
  retryCtxDone : Nat → Bool
  /-- The case taken by the `select` of `run`. -/
  trigger : Trigger
  /-- The error of `echoRouter.Shutdown(ctx)`. -/
  Shutdown : Context → Option GoError
  /-- The error of `echoRouter.Close()`. -/
  Close : Option GoError

/-- How a call of `run` ends: it returns an error value, or it panics. -/
inductive Outcome where
  | returned (err : Option GoError)
  | panicked (msg : String)
  deriving DecidableEq, Repr

/-- The text of the run-time error raised by a method call on a nil interface. -/
def nilDereference : String := "runtime error: invalid memory address or nil pointer dereference"

/-- The text `fmt.Sprint` gives for an `error` operand. -/
def sprintError : Option GoError → String
  | some err => err.Error
  | none => "<nil>"

/-- The function `startLogger(cfg)`: the configuration after the call (the
log file path is overwritten in development mode), the logger or the returned
error, and the steps taken. -/
def startLogger (w : World) (cfg : Config) : Config × Except GoError Logger × List Step :=
  let cfg1 : Config :=
    if cfg.Server.DevMode then { cfg with Server := { cfg.Server with LogFile := "dev.log" } }
    else cfg
  let pre : List Step := [.startLogger, .OpenFile cfg1.Server.LogFile]
  match w.OpenFile cfg1.Server.LogFile with
  | some err => (cfg1, .error (.wrapf "error opening log file: " err), pre)
  | none =>
    let outputPaths := [cfg1.Server.LogFile, "stdout"]
    let pre1 := pre ++ [.Build cfg.Server.DevMode outputPaths]
    match w.Build cfg.Server.DevMode outputPaths with
    | some err => (cfg1, .error (.wrapf "error building logger: " err), pre1)
    | none => (cfg1, .ok [], pre1)

/-- The deferred function of `run` that syncs the logger and closes the log file. -/
def deferredLoggerClose (w : World) : List Step :=
  [.Sync]
    ++ (match w.Sync with
      | some err => [.stdLog ("WARNING: logger failed to Sync(): " ++ err.Error)]
      | none => [])
    ++ [.logfileClose]
    ++ (match w.logfileClose with
      | some err => [.stdLog ("WARNING: error while closing log file: " ++ err.Error)]
      | none => [])

/-- The `select` statement of `run` (listening to shutdown signals) with the
body of the case it takes. -/
def awaitShutdown (w : World) (logger : Logger) (shutdownCtx : Context) : List Step :=
  match w.trigger with
  | .serverErrors err =>
    [.recvServerErrors err]
      ++ (if err ≠ some ErrServerClosed then
          [.zapLog (some logger) .error
            ("Fatal server error listening to API requests:" ++ sprintError err) []]
        else [])
      ++ [.Shutdown shutdownCtx]
      ++ (match w.Shutdown shutdownCtx with
        | some err1 =>
          [.zapLog (some logger) .error ("Error calling server Shutdown(): " ++ err1.Error) [],
            .zapLog (some logger) .warn
              "Could not gracefully shutdown, forcefully closing server" []]
        | none => [])
  | .ctxDone =>
    [.recvCtxDone,
      .zapLog (some logger) .info "Received shutdown signal. Initiating graceful shutdown" [],
      .Shutdown shutdownCtx]
      ++ (match w.Shutdown shutdownCtx with
        | some err1 =>
          [.zapLog (some logger) .error ("Error calling server Shutdown(): " ++ err1.Error) [],
            .zapLog (some logger) .warn
              "Could not gracefully shutdown, forcefully closing server" [],
            .Close]
            ++ (match w.Close with
              | some err2 =>
                [.zapLog (some logger) .error ("Error during forecul shutdown: " ++ err2.Error) []]
              | none => [])
        | none => [])

/-- The end of `run`: the storage connections and the cache are closed and
nil is returned. A method call on a nil interface value panics. -/
def closeStorage (storage : Storage) (logger : Logger) : Outcome × List Step :=
  match storage.Conns.Close with
  | none => (.panicked nilDereference, [.panicked nilDereference])
  | some conns =>
    let s1 : List Step :=
      [.CloseConns]
        ++ (match conns.CloseConns with
          | some err =>
            [.zapLog (some logger) .error ("Error closing storage connections:" ++ err.Error) []]
          | none => [])
    match storage.Cache with
    | none => (.panicked nilDereference, s1 ++ [.panicked nilDereference])
    | some cache =>
      (.returned none,
        s1 ++ [.CacheClose]
          ++ (match cache.Close with
            | some err =>
              [.zapLog (some logger) .error ("Error closing cache connections:" ++ err.Error) []]
            | none => []))

/-- The context `shutdownCtx` of `run`:
`context.WithTimeout(context.Background(), 10*time.Second)`. -/
def shutdownCtx : Context := .WithTimeout .Background (10 * Second)

/-- The part of `run` from the creation of the channel `serverErrors` to its
last statement, deferred calls left out. -/
def serve (w : World) (cfg : Config) (logger : Logger) (storage : Storage) :
    Outcome × List Step :=
  let listenAddr := cfg.Server.Host ++ ":" ++ toString cfg.Server.Port
  let started : List Step :=
    if cfg.Server.DevMode then [.goStart listenAddr] else [.goStartAutoTLS listenAddr]
  let closed := closeStorage storage logger
  (closed.1,
    started ++ [.WithTimeout (10 * Second)] ++ awaitShutdown w logger shutdownCtx ++ closed.2)

/-- The closure passed to `RetryOperation` in `run`: it calls `StartStorage`
on the storage struct and appends the steps of the call to those before. -/
def storageOperation (w : World) (cfg : Config) (logger : Logger) (st : Storage × List Step) :
    Option GoError × (Storage × List Step) :=
  match StartStorage w.database cfg st.1 logger with
  | (storage, err, steps) => (err, (storage, st.2 ++ steps))

/-- The part of `run` after the logger was started, deferred calls left out. -/
def runWithLogger (w : World) (cfg : Config) (logger : Logger) : Outcome × List Step :=
  let pre : List Step :=
    [.zapLog (some logger) .info "Logger constructed successfully" [],
      .zapLog (some logger) .info "Server is running with the following configuration:"
        [(".env config file path", cfg.CfgPaths.EnvPath),
          ("YAML config file path", cfg.CfgPaths.CfgPath),
          ("Server Host", cfg.Server.Host),
          ("Server Port", toString cfg.Server.Port),
          ("Server Development Mode", toString cfg.Server.DevMode),
          ("Log file path", cfg.Server.LogFile),
          ("DB Host", cfg.Database.Host),
          ("DB Port", toString cfg.Database.Port)],
      .zapLog (some logger) .info "Initializing storage" [],
      .RetryOperation 1 (10 * Millisecond)]
  let r := util.RetryOperation (storageOperation w cfg logger) GoError.Error w.retryCtxDone 1
    (10 * Millisecond) (Storage.zero, [])
  let pre1 := pre ++ r.state.2 ++ r.trace.map Step.retry
  match r.err with
  | some ferr =>
    let err := GoError.ofFmt ferr
    (.returned (some (.wrapf "failed to initialize database: " err)),
      pre1 ++ [.zapLog (some logger) .error "Failed to initialize storage" [("error", err.Error)]])
  | none =>
    let storage := r.state.1
    let pre2 := pre1 ++ [.zapLog (some logger) .info "Initializing router" []]
    match InitRouter w.api storage cfg logger with
    | (_, some err, steps) =>
      (.returned (some (.wrapf "failed to initialize router: " err)),
        pre2 ++ steps
          ++ [.zapLog (some logger) .error "Failed to initialize router" [("error", err.Error)]])
    | (_, none, steps) =>
      let served := serve w cfg logger storage
      (served.1, pre2 ++ steps ++ served.2 ++ [.cancel])

/-- The function `run()`: how it ends and the steps taken, deferred calls
included (they run in reverse order of registration, also when panicking). -/
def run (w : World) : Outcome × List Step :=
  let pre : List Step := [.stdLog "Server starting", .LoadConfig]
  match LoadConfig w.config w.vars Config.zero with
  | (_, _, some err, warned) =>
    (.returned (some (.wrapf "couldn't load configuration: " err)),
      pre ++ (warned.map Step.stdLog).toList)
  | (cfg0, _, none, warned) =>
    let pre1 := pre ++ (warned.map Step.stdLog).toList ++ [.Validate]
    match cfg0.Validate w.config.ParseIP with
    | some err =>
      (.returned (some (.wrapf "the current configuration is not valid: " err)), pre1)
    | none =>
      let pre2 := pre1 ++
        [.stdLog (if cfg0.Server.DevMode then "Starting server in development mode"
            else "Starting server in production mode"),
          .NotifyContext]
      match startLogger w cfg0 with
      | (_, .error err, steps) =>
        (.returned (some err),
          pre2 ++ steps ++ [.stdLog ("FATAL: couldn't start logger: " ++ err.Error), .stop])
      | (cfg, .ok logger, steps) =>
        let rest := runWithLogger w cfg logger
        (rest.1, pre2 ++ steps ++ rest.2 ++ deferredLoggerClose w ++ [.stop])

/-- The exit status of the process: what `main` does with the result of `run`. -/
def exitStatus : Outcome → Nat
  | .returned none => 0
  | .returned (some _) => 1
  | .panicked _ => 2

/-- The function `main()`: the exit status and the steps taken. -/
def main (w : World) : Nat × List Step :=
  let r := run w
  (exitStatus r.1,
    r.2 ++ (match r.1 with
      | .returned (some err) =>
        [.stdLog ("FATAL: server has run into an error:  " ++ err.Error)]
      | .returned none => [.stdLog "Server has shutdown properly"]
      | .panicked _ => []))

/-- The bootstrap steps of `run`, in the order `run` takes them. -/
inductive BootstrapStep where
  | LoadConfig
  | Validate
  | startLogger
  | StartStorage
  | InitRouter
  deriving DecidableEq, Repr

/-- The first bootstrap step that fails in the world `w`, if one does: each
step is given what the steps before it produced. -/
def failedStep (w : World) : Option BootstrapStep :=
  let loaded := LoadConfig w.config w.vars Config.zero
  if loaded.2.2.1.isSome then some .LoadConfig
  else if (loaded.1.Validate w.config.ParseIP).isSome then some .Validate
  else
    match startLogger w loaded.1 with
    | (_, .error _, _) => some .startLogger
    | (cfg, .ok logger, _) =>
      let started := StartStorage w.database cfg Storage.zero logger
      if started.2.1.isSome then some .StartStorage
      else if (InitRouter w.api started.1 cfg logger).2.1.isSome then some .InitRouter
      else none

/-- The configuration `srv.cfg` as it is when `run` initialises the storage and
the router: the loaded configuration after `startLogger` has gone over it. -/
def servedConfig (w : World) : Config :=
  (startLogger w (LoadConfig w.config w.vars Config.zero).1).1

/-- The steps that make up the life cycle of the process: calls of the
bootstrap functions, the launch of the listener, the shutdown trigger, the
shutdown and close calls, the deferred calls and panics. Log lines and the
library calls inside the bootstrap functions are not among them. -/
def isLifecycle : Step → Bool
  | .LoadConfig => true
  | .Validate => true
  | .NotifyContext => true
  | .startLogger => true
  | .StartStorage => true
  | .InitRouter => true
  | .goStart _ => true
  | .goStartAutoTLS _ => true
  | .WithTimeout _ => true
  | .recvServerErrors _ => true
  | .recvCtxDone => true
  | .Shutdown _ => true
  | .Close => true
  | .CloseConns => true
  | .CacheClose => true
  | .Sync => true
  | .logfileClose => true
  | .cancel => true
  | .stop => true
  | .panicked _ => true
  | _ => false

/-- The life-cycle steps of a trace, in order. -/
def lifecycle (steps : List Step) : List Step := steps.filter isLifecycle

/-- The contexts handed to `echoRouter.Shutdown`, in order. -/
def shutdownCalls : List Step → List Context
  | [] => []
  | .Shutdown ctx :: t => ctx :: shutdownCalls t
  | _ :: t => shutdownCalls t

/-- A world for examples: the default configuration is loaded, every library
and OS call succeeds, and the shutdown is triggered by a signal. -/
def World.healthy : World :=
  { vars := fun _ => none
    config := config.Externals.fills Config.default
    database := database.Externals.healthy
    api := api.Externals.healthy
    OpenFile := fun _ => none
    Build := fun _ _ => none
    Sync := none
    logfileClose := none
    retryCtxDone := fun _ => false
    trigger := .ctxDone
    Shutdown := fun _ => none
    Close := none }

end main

/-! ## Projections of a trace used by the later theorems -/

namespace api

/-- The limits handed to `syscall.Setrlimit`, as pairs (soft, hard), in order. -/
def setrlimitCalls : List Step → List (Nat × Nat)
  | [] => []
  | .Setrlimit cur max :: t => (cur, max) :: setrlimitCalls t
  | _ :: t => setrlimitCalls t

end api

namespace main

/-- The messages logged at level `Error` with a zap logger, in order. -/
def errorLogs : List Step → List String
  | [] => []
  | .zapLog _ .error msg _ :: t => msg :: errorLogs t
  | _ :: t => errorLogs t

/-- The messages logged at level `Warn` with a zap logger, in order. -/
def warnLogs : List Step → List String
  | [] => []
  | .zapLog _ .warn msg _ :: t => msg :: warnLogs t
  | _ :: t => warnLogs t

end main

/-! ## The sources of the configuration -/

namespace config

/-- Values a source gives for the fields of `Config.CfgPaths`: `none` where it
gives none. -/
structure CfgPathsValues where
  EnvPath : Option String
  CfgPath : Option String
  deriving DecidableEq, Repr

/-- Values a source gives for the fields of `Config.Server`. -/
structure ServerValues where
  DevMode : Option Bool
  Port : Option Nat
  Host : Option String
  LogFile : Option String
  CertFile : Option String
  KeyFile : Option String
  deriving DecidableEq, Repr

/-- Values a source gives for the fields of `Config.Database`. -/
structure DatabaseValues where
  Host : Option String
  DbType : Option String
  User : Option String
  Password : Option String
  DBName : Option String
  ConnPoolSize : Option Int
  Port : Option Nat
  deriving DecidableEq, Repr

/-- Values a source gives for the fields of `Config.Router`. -/
structure RouterValues where
  ReadTimeout : Option Int
  WriteTimeout : Option Int
  deriving DecidableEq, Repr

/-- Values a source gives for the fields of `Config.Logto`. -/
structure LogtoValues where
  Endpoint : Option String
  AppID : Option String
  AppSecret : Option String
  deriving DecidableEq, Repr

/-- What the environment variables that are set give: every field of `Config`
has an `env` tag. -/
structure EnvValues where
  CfgPaths : CfgPathsValues
  Server : ServerValues
  Database : DatabaseValues
  Router : RouterValues
  Logto : LogtoValues
  deriving DecidableEq, Repr

/-- What a YAML file gives: the sections of `Config` with a `yaml` tag
(`CfgPaths` has none). -/
structure FileValues where
  Server : ServerValues
  Database : DatabaseValues
  Router : RouterValues
  Logto : LogtoValues
  deriving DecidableEq, Repr

/-- A source that gives no value for `CfgPaths`. -/
def CfgPathsValues.none : CfgPathsValues := ⟨.none, .none⟩

/-- A source that gives no value for `Server`. -/
def ServerValues.none : ServerValues := ⟨.none, .none, .none, .none, .none, .none⟩

/-- A source that gives no value for `Database`. -/
def DatabaseValues.none : DatabaseValues := ⟨.none, .none, .none, .none, .none, .none, .none⟩

/-- A source that gives no value for `Router`. -/
def RouterValues.none : RouterValues := ⟨.none, .none⟩

/-- A source that gives no value for `Logto`. -/
def LogtoValues.none : LogtoValues := ⟨.none, .none, .none⟩

/-- An environment in which no variable of the configuration is set. -/
def EnvValues.none : EnvValues :=
  ⟨CfgPathsValues.none, ServerValues.none, DatabaseValues.none, RouterValues.none,
    LogtoValues.none⟩

/-- A YAML file that gives no field (also: no file read). -/
def FileValues.none : FileValues :=
  ⟨ServerValues.none, DatabaseValues.none, RouterValues.none, LogtoValues.none⟩

/-- The fields of `CfgPaths` after the values of a source are written over them. -/
def CfgPathsValues.over (v : CfgPathsValues) (c : CfgPaths) : CfgPaths :=
  ⟨v.EnvPath.getD c.EnvPath, v.CfgPath.getD c.CfgPath⟩

/-- The fields of `Server` after the values of a source are written over them. -/
def ServerValues.over (v : ServerValues) (c : Server) : Server :=
  ⟨v.DevMode.getD c.DevMode, v.Port.getD c.Port, v.Host.getD c.Host, v.LogFile.getD c.LogFile,
    v.CertFile.getD c.CertFile, v.KeyFile.getD c.KeyFile⟩

/-- The fields of `Database` after the values of a source are written over them. -/
def DatabaseValues.over (v : DatabaseValues) (c : Database) : Database :=
  ⟨v.Host.getD c.Host, v.DbType.getD c.DbType, v.User.getD c.User, v.Password.getD c.Password,
    v.DBName.getD c.DBName, v.ConnPoolSize.getD c.ConnPoolSize, v.Port.getD c.Port⟩

/-- The fields of `Router` after the values of a source are written over them. -/
def RouterValues.over (v : RouterValues) (c : Router) : Router :=
  ⟨v.ReadTimeout.getD c.ReadTimeout, v.WriteTimeout.getD c.WriteTimeout⟩

/-- The fields of `Logto` after the values of a source are written over them. -/
def LogtoValues.over (v : LogtoValues) (c : Logto) : Logto :=
  ⟨v.Endpoint.getD c.Endpoint, v.AppID.getD c.AppID, v.AppSecret.getD c.AppSecret⟩

/-- A configuration after the values of the environment are written over it. -/
def EnvValues.over (v : EnvValues) (c : Config) : Config :=
  ⟨v.CfgPaths.over c.CfgPaths, v.Server.over c.Server, v.Database.over c.Database,
    v.Router.over c.Router, v.Logto.over c.Logto⟩

/-- A configuration after the values of a YAML file are written over it. -/
def FileValues.over (v : FileValues) (c : Config) : Config :=
  ⟨c.CfgPaths, v.Server.over c.Server, v.Database.over c.Database, v.Router.over c.Router,
    v.Logto.over c.Logto⟩

/-- The configuration whose fields are the `env-default` tags of the struct
`Config`. -/
def Config.envDefault : Config :=
  { CfgPaths := ⟨"config/config.env", "config/config.yaml"⟩
    Server := ⟨true, 7777, "localhost", "/var/log/junkyard.log", "/some/where/secure",
      "/some/where/secure"⟩
    Database := ⟨"storage", "postgres", "postgres", "password", "database", 20, 5432⟩
    Router := ⟨5 * Second, 5 * Second⟩
    Logto := ⟨"", "", ""⟩ }

end config

namespace cleanenv

open config

/-- Modelled from the spec: the function `cleanenv.ReadEnv` of the cleanenv
library, which is not part of the repository. Following the comment of
`LoadConfig` and the precedence the spec gives (environment variables over
struct defaults), each field gets the value of its environment variable when
that is set and its `env-default` otherwise. `envOf` gives the typed values of
the variables that are set, or the error of one that does not parse. -/
def ReadEnv (envOf : OsEnv → Except GoError EnvValues) (vars : OsEnv) (cfg : Config) :
    Config × Option GoError :=
  match envOf vars with
  | .error err => (cfg, some err)
  | .ok ev => (ev.over Config.envDefault, none)

/-- Modelled from the spec: the function `cleanenv.ReadConfig` of the cleanenv
library, which is not part of the repository. Following the comment of
`LoadConfig` and the precedence the spec gives (environment variables over YAML
file values), the values the file gives are written over the struct, whatever
they are, and the values of the environment variables that are set are written
over those. `files` gives the fields of the YAML file at a path, or the error of
reading it. -/
def ReadConfig (envOf : OsEnv → Except GoError EnvValues)
    (files : String → Except GoError FileValues) (path : String) (vars : OsEnv) (cfg : Config) :
    Config × Option GoError :=
  match files path with
  | .error err => (cfg, some err)
  | .ok fv =>
    match envOf vars with
    | .error err => (fv.over cfg, some err)
    | .ok ev => (ev.over (fv.over cfg), none)

end cleanenv

namespace config

/-- The environment of package `config` in which `cleanenv.ReadEnv` and
`cleanenv.ReadConfig` are the functions modelled above. -/
def Externals.cleanenv (envOf : OsEnv → Except GoError EnvValues)
    (files : String → Except GoError FileValues)
    (godotenvLoad : String → OsEnv → OsEnv × Option GoError) (ParseIP : String → Bool) :
    Externals :=
  { godotenvLoad := godotenvLoad
    ReadEnv := cleanenv.ReadEnv envOf
    ReadConfig := cleanenv.ReadConfig envOf files
    ParseIP := ParseIP }

end config

/-! ## Theorems: machine integers -/

theorem wrapInt64_of_inRange (x : Int) (h1 : -2 ^ 63 ≤ x) (h2 : x < 2 ^ 63) : wrapInt64 x = x := by
  unfold wrapInt64
  rw [Int.emod_eq_of_lt (by omega) (by omega)]
  omega

theorem wrapInt32_of_inRange (x : Int) (h1 : -2 ^ 31 ≤ x) (h2 : x < 2 ^ 31) : wrapInt32 x = x := by
  unfold wrapInt32
  rw [Int.emod_eq_of_lt (by omega) (by omega)]
  omega

/-! ## Theorems: `RetryOperation` -/

namespace util

variable {σ ε : Type}

theorem stateAfter_succ_left (operation : σ → Option ε × σ) (s : σ) (n : Nat) :
    stateAfter operation s (n + 1) = stateAfter operation (operation s).2 n := by
  induction n with
  | zero => rfl
  | succ n ih =>
    show (operation (stateAfter operation s (n + 1))).2 = _
    rw [ih]
    rfl

theorem resultAt_succ_left (operation : σ → Option ε × σ) (s : σ) (n : Nat) :
    resultAt operation s (n + 1) = resultAt operation (operation s).2 n := by
  unfold resultAt
  rw [stateAfter_succ_left]

theorem delayAt_succ_left (delay : Int) (n : Nat) :
    delayAt delay (n + 1) = delayAt (wrapInt64 (delay * 2)) n := by
  induction n with
  | zero => rfl
  | succ n ih =>
    show wrapInt64 (delayAt delay (n + 1) * 2) = _
    rw [ih]
    rfl

theorem map_delayAt_range_succ (delay : Int) (n : Nat) :
    (List.range (n + 1)).map (delayAt delay)
      = delay :: (List.range n).map (delayAt (wrapInt64 (delay * 2))) := by
  rw [List.range_succ_eq_map, List.map_cons, List.map_map]
  congr 1
  apply List.map_congr_left
  intro j _
  exact delayAt_succ_left delay j

theorem delayAt_eq_mul_pow (delay : Int) (n : Nat)
    (h : ∀ j, j ≤ n → -2 ^ 63 ≤ delay * 2 ^ j ∧ delay * 2 ^ j < 2 ^ 63) :
    delayAt delay n = delay * 2 ^ n := by
  induction n with
  | zero => simp [delayAt]
  | succ n ih =>
    have hn := ih (fun j hj => h j (Nat.le_succ_of_le hj))
    have hs := h (n + 1) (Nat.le_refl _)
    show wrapInt64 (delayAt delay n * 2) = _
    rw [hn]
    have e : delay * 2 ^ n * 2 = delay * 2 ^ (n + 1) := by ring
    rw [e]
    exact wrapInt64_of_inRange _ hs.1 hs.2

/-- The loop when the operation fails on its next `k` invocations and then
succeeds, and no `select` takes the cancellation case. -/
theorem retryLoop_success (operation : σ → Option ε × σ) (Error : ε → String)
    (ctxDone : Nat → Bool) (attempts : Int) (k : Nat) :
    ∀ (remaining i : Nat) (delay : Int) (err : Option ε) (s : σ),
      k < remaining →
      (∀ j, j < k → resultAt operation s j ≠ none) →
      resultAt operation s k = none →
      (∀ j, j < k → ctxDone (i + j) = false) →
      (retryLoop operation Error ctxDone attempts remaining i delay err s).err = none ∧
      calls (retryLoop operation Error ctxDone attempts remaining i delay err s).trace = k + 1 ∧
      waits (retryLoop operation Error ctxDone attempts remaining i delay err s).trace
        = (List.range k).map (delayAt delay) ∧
      (retryLoop operation Error ctxDone attempts remaining i delay err s).state
        = stateAfter operation s (k + 1) := by
  induction k with
  | zero =>
    intro remaining i delay err s hrem _ hsucc _
    obtain ⟨n, rfl⟩ : ∃ n, remaining = n + 1 := ⟨remaining - 1, by omega⟩
    have h0 : (operation s).1 = none := hsucc
    rcases hop : operation s with ⟨r, s'⟩
    rw [hop] at h0
    simp only at h0
    subst h0
    simp [retryLoop, hop, calls, waits, stateAfter]
  | succ k ih =>
    intro remaining i delay err s hrem hfail hsucc hctx
    obtain ⟨n, rfl⟩ : ∃ n, remaining = n + 1 := ⟨remaining - 1, by omega⟩
    have h0 : (operation s).1 ≠ none := hfail 0 (Nat.succ_pos k)
    have hc0 : ctxDone i = false := by simpa using hctx 0 (Nat.succ_pos k)
    rcases hop : operation s with ⟨r, s'⟩
    rw [hop] at h0
    obtain ⟨e, rfl⟩ : ∃ e, r = some e := Option.ne_none_iff_exists'.mp h0
    have hs' : s' = (operation s).2 := by rw [hop]
    have hrec := ih n (i + 1) (wrapInt64 (delay * 2)) (some e) s' (by omega)
      (fun j hj => by
        rw [hs', ← resultAt_succ_left]
        exact hfail (j + 1) (by omega))
      (by rw [hs', ← resultAt_succ_left]; exact hsucc)
      (fun j hj => by
        have := hctx (j + 1) (by omega)
        rwa [show i + 1 + j = i + (j + 1) by omega])
    obtain ⟨h1, h2, h3, h4⟩ := hrec
    refine ⟨?_, ?_, ?_, ?_⟩
    · simp [retryLoop, hop, hc0, h1]
    · simp [retryLoop, hop, hc0, calls, h2]
    · rw [map_delayAt_range_succ]
      simp [retryLoop, hop, hc0, waits, h3]
    · rw [stateAfter_succ_left, ← hs']
      simp [retryLoop, hop, hc0, h4]

end util

namespace util

variable {σ ε : Type}

/-- The loop when the operation fails on each of the `remaining` invocations
and no `select` takes the cancellation case. -/
theorem retryLoop_exhausted (operation : σ → Option ε × σ) (Error : ε → String)
    (ctxDone : Nat → Bool) (attempts : Int) (n : Nat) :
    ∀ (i : Nat) (delay : Int) (err : Option ε) (s : σ),
      (∀ j, j < n + 1 → resultAt operation s j ≠ none) →
      (∀ j, j < n + 1 → ctxDone (i + j) = false) →
      (retryLoop operation Error ctxDone attempts (n + 1) i delay err s).err
        = some (failedAfterError Error attempts (resultAt operation s n)) ∧
      calls (retryLoop operation Error ctxDone attempts (n + 1) i delay err s).trace = n + 1 ∧
      waits (retryLoop operation Error ctxDone attempts (n + 1) i delay err s).trace
        = (List.range (n + 1)).map (delayAt delay) := by
  induction n with
  | zero =>
    intro i delay err s hfail hctx
    have h0 : (operation s).1 ≠ none := hfail 0 (by omega)
    have hc0 : ctxDone i = false := by simpa using hctx 0 (by omega)
    rcases hop : operation s with ⟨r, s'⟩
    rw [hop] at h0
    obtain ⟨e, rfl⟩ : ∃ e, r = some e := Option.ne_none_iff_exists'.mp h0
    have hr : resultAt operation s 0 = some e := by simp [resultAt, stateAfter, hop]
    simp [retryLoop, hop, hc0, hr, calls, waits, delayAt, List.range_succ]
  | succ n ih =>
    intro i delay err s hfail hctx
    have h0 : (operation s).1 ≠ none := hfail 0 (by omega)
    have hc0 : ctxDone i = false := by simpa using hctx 0 (by omega)
    rcases hop : operation s with ⟨r, s'⟩
    rw [hop] at h0
    obtain ⟨e, rfl⟩ : ∃ e, r = some e := Option.ne_none_iff_exists'.mp h0
    have hs' : s' = (operation s).2 := by rw [hop]
    have hrec := ih (i + 1) (wrapInt64 (delay * 2)) (some e) s'
      (fun j hj => by
        rw [hs', ← resultAt_succ_left]
        exact hfail (j + 1) (by omega))
      (fun j hj => by
        have := hctx (j + 1) (by omega)
        rwa [show i + 1 + j = i + (j + 1) by omega])
    obtain ⟨h1, h2, h3⟩ := hrec
    refine ⟨?_, ?_, ?_⟩
    · rw [resultAt_succ_left, ← hs']
      rw [retryLoop]
      simp [hop, hc0, h1]
    · rw [retryLoop]
      simp [hop, hc0, calls, h2]
    · rw [map_delayAt_range_succ, retryLoop]
      simp [hop, hc0, waits, h3]

/-- The loop when the operation fails on its next `k + 1` invocations and the
`select` after the last of them is the first to take the cancellation case. -/
theorem retryLoop_cancelled (operation : σ → Option ε × σ) (Error : ε → String)
    (ctxDone : Nat → Bool) (attempts : Int) (k : Nat) :
    ∀ (remaining i : Nat) (delay : Int) (err : Option ε) (s : σ),
      k < remaining →
      (∀ j, j ≤ k → resultAt operation s j ≠ none) →
      (∀ j, j < k → ctxDone (i + j) = false) →
      ctxDone (i + k) = true →
      (retryLoop operation Error ctxDone attempts remaining i delay err s).err
        = some cancelledError ∧
      calls (retryLoop operation Error ctxDone attempts remaining i delay err s).trace = k + 1 ∧
      (retryLoop operation Error ctxDone attempts remaining i delay err s).trace.getLast?
        = some .ctxDone ∧
      waits (retryLoop operation Error ctxDone attempts remaining i delay err s).trace
        = (List.range k).map (delayAt delay) ∧
      (retryLoop operation Error ctxDone attempts remaining i delay err s).state
        = stateAfter operation s (k + 1) := by
  induction k with
  | zero =>
    intro remaining i delay err s hrem hfail _ hdone
    obtain ⟨n, rfl⟩ : ∃ n, remaining = n + 1 := ⟨remaining - 1, by omega⟩
    have h0 : (operation s).1 ≠ none := hfail 0 (Nat.le_refl 0)
    have hc0 : ctxDone i = true := by simpa using hdone
    rcases hop : operation s with ⟨r, s'⟩
    rw [hop] at h0
    obtain ⟨e, rfl⟩ : ∃ e, r = some e := Option.ne_none_iff_exists'.mp h0
    simp [retryLoop, hop, hc0, calls, waits, stateAfter]
  | succ k ih =>
    intro remaining i delay err s hrem hfail hctx hdone
    obtain ⟨n, rfl⟩ : ∃ n, remaining = n + 1 := ⟨remaining - 1, by omega⟩
    have h0 : (operation s).1 ≠ none := hfail 0 (Nat.zero_le _)
    have hc0 : ctxDone i = false := by simpa using hctx 0 (Nat.succ_pos k)
    rcases hop : operation s with ⟨r, s'⟩
    rw [hop] at h0
    obtain ⟨e, rfl⟩ : ∃ e, r = some e := Option.ne_none_iff_exists'.mp h0
    have hs' : s' = (operation s).2 := by rw [hop]
    have hrec := ih n (i + 1) (wrapInt64 (delay * 2)) (some e) s' (by omega)
      (fun j hj => by
        rw [hs', ← resultAt_succ_left]
        exact hfail (j + 1) (by omega))
      (fun j hj => by
        have := hctx (j + 1) (by omega)
        rwa [show i + 1 + j = i + (j + 1) by omega])
      (by rwa [show i + 1 + k = i + (k + 1) by omega])
    obtain ⟨h1, h2, h3, h4, h5⟩ := hrec
    have hne : (retryLoop operation Error ctxDone attempts n (i + 1) (wrapInt64 (delay * 2))
        (some e) s').trace ≠ [] := by
      intro hnil
      rw [hnil] at h3
      simp at h3
    refine ⟨?_, ?_, ?_, ?_, ?_⟩
    · simp [retryLoop, hop, hc0, h1]
    · simp [retryLoop, hop, hc0, calls, h2]
    · rw [retryLoop]
      simp only [hop, hc0]
      simp only [Bool.false_eq_true, if_false]
      rw [List.getLast?_append_of_ne_nil _ hne]
      exact h3
    · rw [map_delayAt_range_succ]
      simp [retryLoop, hop, hc0, waits, h4]
    · rw [stateAfter_succ_left, ← hs']
      simp [retryLoop, hop, hc0, h5]

/-- The loop runs the operation exactly once when one iteration is left and
the loop ends after it, whatever the operation returns. -/
theorem retryLoop_one_calls (operation : σ → Option ε × σ) (Error : ε → String)
    (ctxDone : Nat → Bool) (attempts : Int) (i : Nat) (delay : Int) (err : Option ε) (s : σ) :
    calls (retryLoop operation Error ctxDone attempts 1 i delay err s).trace = 1 := by
  rcases hop : operation s with ⟨r, s'⟩
  cases r with
  | none => simp [retryLoop, hop, calls]
  | some e =>
    cases hc : ctxDone i <;> simp [retryLoop, hop, hc, calls]

end util

namespace util

variable {σ ε : Type}

/-- C1 (amended): for every `attempts ≥ 1` and every `k` with
`1 ≤ k ≤ attempts`, if the operation fails on its first `k - 1` invocations,
succeeds on the `k`-th and no `select` takes the cancellation case, then
`RetryOperation` returns nil, invokes the operation exactly `k` times and waits
exactly `k - 1` times; the `j`-th wait is the initial delay after `j` doublings
of a `time.Duration` (an `int64`, so the doubling wraps), and it is the initial
delay times `2 ^ j` whenever these products stay in the `int64` range. -/
theorem RetryOperation_succeeds_on_kth (operation : σ → Option ε × σ) (Error : ε → String)
    (ctxDone : Nat → Bool) (attempts : Int) (k : Nat) (delay : Int) (s : σ)
    (hk : 1 ≤ k) (hka : (k : Int) ≤ attempts)
    (hfail : ∀ j, j + 1 < k → resultAt operation s j ≠ none)
    (hsucc : resultAt operation s (k - 1) = none)
    (hctx : ∀ i, ctxDone i = false) :
    (RetryOperation operation Error ctxDone attempts delay s).err = none ∧
    calls (RetryOperation operation Error ctxDone attempts delay s).trace = k ∧
    (waits (RetryOperation operation Error ctxDone attempts delay s).trace).length = k - 1 ∧
    waits (RetryOperation operation Error ctxDone attempts delay s).trace
      = (List.range (k - 1)).map (delayAt delay) ∧
    ((∀ j, j + 1 < k → -2 ^ 63 ≤ delay * 2 ^ j ∧ delay * 2 ^ j < 2 ^ 63) →
      waits (RetryOperation operation Error ctxDone attempts delay s).trace
        = (List.range (k - 1)).map (fun j => delay * 2 ^ j)) := by
  obtain ⟨m, rfl⟩ : ∃ m, k = m + 1 := ⟨k - 1, by omega⟩
  have hrem : m < attempts.toNat := by omega
  have h := retryLoop_success operation Error ctxDone attempts m attempts.toNat 0 delay none s
    hrem (fun j hj => hfail j (by omega)) (by simpa using hsucc) (fun j _ => hctx (0 + j))
  obtain ⟨h1, h2, h3, _⟩ := h
  unfold RetryOperation
  refine ⟨h1, h2, ?_, ?_, ?_⟩
  · rw [h3]; simp
  · simpa using h3
  · intro hrange
    rw [h3]
    simp only [Nat.add_sub_cancel]
    apply List.map_congr_left
    intro j hj
    have hjm : j < m := List.mem_range.mp hj
    exact delayAt_eq_mul_pow delay j (fun i hi => hrange i (by omega))

/-- Witness for C1: three attempts, an initial delay of 10ms, two failures and
then success give three calls, waits of 10ms and 20ms, and a nil result. -/
theorem RetryOperation_succeeds_on_kth_witness :
    (RetryOperation (failFirst 2) id (fun _ => false) 3 (10 * Millisecond) 0).err = none ∧
    calls (RetryOperation (failFirst 2) id (fun _ => false) 3 (10 * Millisecond) 0).trace = 3 ∧
    waits (RetryOperation (failFirst 2) id (fun _ => false) 3 (10 * Millisecond) 0).trace
      = [10 * Millisecond, 20 * Millisecond] := by
  have h := RetryOperation_succeeds_on_kth (failFirst 2) id (fun _ => false) 3 3
    (10 * Millisecond) 0 (by decide) (by decide)
    (fun j hj => by
      have hj2 : j < 2 := by omega
      interval_cases j <;> decide)
    (by decide) (fun _ => rfl)
  obtain ⟨h1, h2, _, _, h5⟩ := h
  refine ⟨h1, h2, ?_⟩
  rw [h5 (fun j hj => by
    have hj2 : j < 2 := by omega
    interval_cases j <;> decide)]
  decide

/-- Counterexample to C1 as stated: with three attempts, an initial delay of
`2 ^ 62` nanoseconds and two failures before the success, the second wait is
not double the first: the doubling overflows `int64` and the delay handed to
`time.After` is `-2 ^ 63`. -/
theorem RetryOperation_doubling_overflows :
    resultAt (failFirst 2) 0 0 ≠ none ∧ resultAt (failFirst 2) 0 1 ≠ none ∧
    resultAt (failFirst 2) 0 2 = none ∧
    calls (RetryOperation (failFirst 2) id (fun _ => false) 3 4611686018427387904 0).trace = 3 ∧
    waits (RetryOperation (failFirst 2) id (fun _ => false) 3 4611686018427387904 0).trace
      = [4611686018427387904, -9223372036854775808] ∧
    waits (RetryOperation (failFirst 2) id (fun _ => false) 3 4611686018427387904 0).trace
      ≠ [4611686018427387904, 2 * 4611686018427387904] := by
  decide

/-- C2: for every `attempts ≥ 1`, if the operation fails on every invocation
and no `select` takes the cancellation case, `RetryOperation` invokes the
operation exactly `attempts` times and returns the error with the text
`operation failed after <attempts> attempts. Last error: <text of e>` that
wraps `e`, the error of the last invocation, and nothing else. -/
theorem RetryOperation_all_fail (operation : σ → Option ε × σ) (Error : ε → String)
    (ctxDone : Nat → Bool) (attempts : Int) (delay : Int) (s : σ)
    (ha : 1 ≤ attempts)
    (hfail : ∀ j, resultAt operation s j ≠ none)
    (hctx : ∀ i, ctxDone i = false) :
    ∃ e, resultAt operation s (attempts.toNat - 1) = some e ∧
      (RetryOperation operation Error ctxDone attempts delay s).err
        = some (.wrapError ("operation failed after " ++ toString attempts
            ++ " attempts. Last error: " ++ Error e) e) ∧
      ((RetryOperation operation Error ctxDone attempts delay s).err.bind FmtError.Unwrap
        = some e) ∧
      (calls (RetryOperation operation Error ctxDone attempts delay s).trace : Int)
        = attempts := by
  obtain ⟨n, hn⟩ : ∃ n, attempts.toNat = n + 1 := ⟨attempts.toNat - 1, by omega⟩
  obtain ⟨e, he⟩ : ∃ e, resultAt operation s n = some e :=
    Option.ne_none_iff_exists'.mp (hfail n)
  have h := retryLoop_exhausted operation Error ctxDone attempts n 0 delay none s
    (fun j _ => hfail j) (fun j _ => hctx (0 + j))
  obtain ⟨h1, h2, _⟩ := h
  refine ⟨e, ?_, ?_, ?_, ?_⟩
  · rw [hn]; simpa using he
  · unfold RetryOperation
    rw [hn, h1, he]
    rfl
  · unfold RetryOperation
    rw [hn, h1, he]
    rfl
  · unfold RetryOperation
    rw [hn, h2]
    omega

/-- Witness for C2: two attempts of an operation that always fails with
`ErrX` give two calls and an error about `2 attempts` that wraps `ErrX`. -/
theorem RetryOperation_all_fail_witness :
    (RetryOperation alwaysFail id (fun _ => false) 2 (5 * Millisecond) 0).err
      = some (.wrapError "operation failed after 2 attempts. Last error: ErrX" "ErrX") ∧
    calls (RetryOperation alwaysFail id (fun _ => false) 2 (5 * Millisecond) 0).trace = 2 := by
  obtain ⟨e, he, herr, _, hc⟩ := RetryOperation_all_fail alwaysFail id (fun _ => false) 2
    (5 * Millisecond) 0 (by decide) (fun j => by simp [resultAt, alwaysFail]) (fun _ => rfl)
  have hx : e = "ErrX" := by
    have hlast : resultAt alwaysFail 0 ((2 : Int).toNat - 1) = some "ErrX" := by decide
    rw [hlast] at he
    exact (Option.some.inj he).symm
  subst hx
  refine ⟨?_, ?_⟩
  · rw [herr]
    decide
  · exact_mod_cast hc

/-- C3: if the operation has failed on its first `k + 1` invocations and the
`select` that follows the last of them is the first to take the cancellation
case, `RetryOperation` returns the cancellation error, a plain string error
that wraps nothing (so not the operation's error), the cancellation is its last
step, and the operation has been invoked `k + 1` times and no more. -/
theorem RetryOperation_cancelled_while_waiting (operation : σ → Option ε × σ)
    (Error : ε → String) (ctxDone : Nat → Bool) (attempts : Int) (k : Nat) (delay : Int) (s : σ)
    (hk : (k : Int) < attempts)
    (hfail : ∀ j, j ≤ k → resultAt operation s j ≠ none)
    (hctx : ∀ j, j < k → ctxDone j = false)
    (hdone : ctxDone k = true) :
    (RetryOperation operation Error ctxDone attempts delay s).err
      = some (.errorString "context has cancelled, cancelling operation") ∧
    ((RetryOperation operation Error ctxDone attempts delay s).err.bind FmtError.Unwrap
      = none) ∧
    (∀ msg e, (RetryOperation operation Error ctxDone attempts delay s).err
      ≠ some (.wrapError msg e)) ∧
    calls (RetryOperation operation Error ctxDone attempts delay s).trace = k + 1 ∧
    (RetryOperation operation Error ctxDone attempts delay s).trace.getLast? = some .ctxDone ∧
    (RetryOperation operation Error ctxDone attempts delay s).state
      = stateAfter operation s (k + 1) := by
  have hrem : k < attempts.toNat := by omega
  have h := retryLoop_cancelled operation Error ctxDone attempts k attempts.toNat 0 delay none s
    hrem hfail (fun j hj => by simpa using hctx j hj) (by simpa using hdone)
  obtain ⟨h1, h2, h3, _, h5⟩ := h
  unfold RetryOperation
  refine ⟨h1, ?_, ?_, h2, h3, h5⟩
  · rw [h1]; rfl
  · intro msg e
    rw [h1]
    simp [cancelledError]

/-- Witness for C3: three attempts, the operation always fails and the context
is cancelled during the second wait: two calls, then the cancellation error. -/
theorem RetryOperation_cancelled_while_waiting_witness :
    (RetryOperation alwaysFail id (fun i => decide (i = 1)) 3 (10 * Millisecond) 0).err
      = some (.errorString "context has cancelled, cancelling operation") ∧
    calls (RetryOperation alwaysFail id (fun i => decide (i = 1)) 3 (10 * Millisecond) 0).trace
      = 2 := by
  have h := RetryOperation_cancelled_while_waiting alwaysFail id (fun i => decide (i = 1)) 3 1
    (10 * Millisecond) 0 (by decide) (fun j _ => by simp [resultAt, alwaysFail])
    (fun j hj => by
      have hj0 : j = 0 := by omega
      subst hj0
      decide)
    (by decide)
  exact ⟨h.1, h.2.2.2.1⟩

/-- C4 (amended): with `attempts = 1` the operation is invoked exactly once,
whatever it returns, and the result is nil if that invocation succeeds; with
`attempts = 0` the operation is not invoked at all and the result is a non-nil
error. -/
theorem RetryOperation_one_or_zero_attempts (operation : σ → Option ε × σ) (Error : ε → String)
    (ctxDone : Nat → Bool) (delay : Int) (s : σ) :
    (calls (RetryOperation operation Error ctxDone 1 delay s).trace = 1 ∧
      (resultAt operation s 0 = none →
        (RetryOperation operation Error ctxDone 1 delay s).err = none)) ∧
    (calls (RetryOperation operation Error ctxDone 0 delay s).trace = 0 ∧
      (RetryOperation operation Error ctxDone 0 delay s).err ≠ none) := by
  refine ⟨⟨?_, ?_⟩, ?_, ?_⟩
  · exact retryLoop_one_calls operation Error ctxDone 1 0 delay none s
  · intro hsucc
    exact (retryLoop_success operation Error ctxDone 1 0 1 0 delay none s (by omega)
      (fun j hj => absurd hj (Nat.not_lt_zero j)) hsucc
      (fun j hj => absurd hj (Nat.not_lt_zero j))).1
  · simp [RetryOperation, retryLoop, calls]
  · simp [RetryOperation, retryLoop]

/-- Witness for C4: one attempt of an operation that succeeds at once gives
one call and a nil result. -/
theorem RetryOperation_one_or_zero_attempts_witness :
    calls (RetryOperation (failFirst 0) id (fun _ => false) 1 (10 * Millisecond) 0).trace = 1 ∧
    (RetryOperation (failFirst 0) id (fun _ => false) 1 (10 * Millisecond) 0).err = none :=
  ⟨(RetryOperation_one_or_zero_attempts (failFirst 0) id (fun _ => false)
      (10 * Millisecond) 0).1.1,
    (RetryOperation_one_or_zero_attempts (failFirst 0) id (fun _ => false)
      (10 * Millisecond) 0).1.2 (by decide)⟩

/-- Counterexample to C4 as stated: with `attempts = 0` an operation that would
succeed at once is never invoked, and the result is an error. -/
theorem RetryOperation_zero_attempts_never_invokes :
    resultAt (failFirst 0) 0 0 = none ∧
    calls (RetryOperation (failFirst 0) id (fun _ => false) 0 (10 * Millisecond) 0).trace = 0 ∧
    (RetryOperation (failFirst 0) id (fun _ => false) 0 (10 * Millisecond) 0).err
      = some (.errorString "operation failed after 0 attempts. Last error: %!w(<nil>)") := by
  decide

end util

namespace util

variable {σ ε : Type}

/-- With one attempt the loop body runs once: the result of `RetryOperation`
by cases on what the operation returns and on the `select`. -/
theorem RetryOperation_one_eq (operation : σ → Option ε × σ) (Error : ε → String)
    (ctxDone : Nat → Bool) (delay : Int) (s : σ) :
    RetryOperation operation Error ctxDone 1 delay s =
      match operation s with
      | (none, s') => ⟨none, s', [.invoke none]⟩
      | (some e, s') =>
        if ctxDone 0 then
          ⟨some cancelledError, s', [.invoke (some e), .logError 1 (Error e) delay, .ctxDone]⟩
        else
          ⟨some (failedAfterError Error 1 (some e)), s',
            [.invoke (some e), .logError 1 (Error e) delay, .timer delay]⟩ := by
  unfold RetryOperation
  show retryLoop operation Error ctxDone 1 (0 + 1) 0 delay none s = _
  rw [retryLoop]
  rcases operation s with ⟨r, s'⟩
  cases r with
  | none => rfl
  | some e =>
    cases hc : ctxDone 0 <;> simp [retryLoop]

theorem RetryOperation_one_state (operation : σ → Option ε × σ) (Error : ε → String)
    (ctxDone : Nat → Bool) (delay : Int) (s : σ) :
    (RetryOperation operation Error ctxDone 1 delay s).state = (operation s).2 := by
  rw [RetryOperation_one_eq]
  rcases operation s with ⟨r, s'⟩
  cases r with
  | none => rfl
  | some e => cases hc : ctxDone 0 <;> simp

theorem RetryOperation_one_err (operation : σ → Option ε × σ) (Error : ε → String)
    (ctxDone : Nat → Bool) (delay : Int) (s : σ) :
    (RetryOperation operation Error ctxDone 1 delay s).err.isSome = (operation s).1.isSome := by
  rw [RetryOperation_one_eq]
  rcases operation s with ⟨r, s'⟩
  cases r with
  | none => rfl
  | some e => cases hc : ctxDone 0 <;> simp

end util

/-! ## Theorems: package `config` -/

namespace config

theorem ValidateAddress_eq_none_iff (ParseIP : String → Bool) (port : Nat) (host : String) :
    ValidateAddress ParseIP port host = none ↔
      1024 ≤ port ∧ port ≤ 49151 ∧ (host = "localhost" ∨ ParseIP host = true) := by
  unfold ValidateAddress
  by_cases hp : port < 1024 ∨ port > 49151
  · rw [if_pos hp]
    constructor
    · intro h; cases h
    · intro h; omega
  · rw [if_neg hp]
    by_cases hh : ParseIP host = false ∧ host ≠ "localhost"
    · rw [if_pos hh]
      constructor
      · intro h; cases h
      · rintro ⟨_, _, h | h⟩
        · exact absurd h hh.2
        · rw [hh.1] at h; cases h
    · rw [if_neg hh]
      refine ⟨fun _ => ⟨by omega, by omega, ?_⟩, fun _ => rfl⟩
      by_cases hl : host = "localhost"
      · exact Or.inl hl
      · right
        cases hip : ParseIP host
        · exact absurd ⟨hip, hl⟩ hh
        · rfl

theorem Validate_eq_ValidateAddress (ParseIP : String → Bool) (c : Config) :
    c.Validate ParseIP = ValidateAddress ParseIP c.Server.Port c.Server.Host := by
  unfold Config.Validate
  cases ValidateAddress ParseIP c.Server.Port c.Server.Host <;> rfl

/-- C5: `Config.Validate` returns nil exactly when `Server.Port` lies in
`1024..49151` and `Server.Host` is `"localhost"` or is accepted by
`net.ParseIP` (so for every other port or host it returns an error), and two
configurations with the same server port and host get the same result,
whatever their other fields. -/
theorem Validate_nil_iff (ParseIP : String → Bool) (c : Config) :
    (c.Validate ParseIP = none ↔
      1024 ≤ c.Server.Port ∧ c.Server.Port ≤ 49151 ∧
        (c.Server.Host = "localhost" ∨ ParseIP c.Server.Host = true)) ∧
    (∀ c' : Config, c'.Server.Port = c.Server.Port → c'.Server.Host = c.Server.Host →
      c'.Validate ParseIP = c.Validate ParseIP) := by
  refine ⟨?_, ?_⟩
  · rw [Validate_eq_ValidateAddress]
    exact ValidateAddress_eq_none_iff ParseIP c.Server.Port c.Server.Host
  · intro c' hp hh
    rw [Validate_eq_ValidateAddress, Validate_eq_ValidateAddress, hp, hh]

/-- Witness for C5: the default configuration (port 7777, host `localhost`) is
valid, and so is the zero configuration once given that port and host. -/
theorem Validate_nil_iff_witness :
    Config.default.Validate (fun host => decide (host = "127.0.0.1")) = none ∧
    ({ Config.zero with Server := { Config.zero.Server with Port := 7777, Host := "localhost" } }
        : Config).Validate (fun host => decide (host = "127.0.0.1"))
      = Config.default.Validate (fun host => decide (host = "127.0.0.1")) :=
  ⟨(Validate_nil_iff (fun host => decide (host = "127.0.0.1")) Config.default).1.mpr
      (by decide),
    (Validate_nil_iff (fun host => decide (host = "127.0.0.1")) Config.default).2 _ rfl rfl⟩

end config

/-! ## Theorems: package `database` -/

namespace database

open config

theorem startPostgres_maxConnsSet (x : Externals) (cfg : Config) (stg : Storage)
    (poolCfg0 : PoolConfig) (hparse : x.ParseConfig (connStr cfg) = .ok poolCfg0) :
    maxConnsSet (startPostgres x cfg stg).2.2
      = [if cfg.Database.ConnPoolSize = 0 then 20 else wrapInt32 cfg.Database.ConnPoolSize] := by
  unfold startPostgres
  rw [hparse]
  by_cases h0 : cfg.Database.ConnPoolSize = 0
  · simp only [h0, if_true]
    rcases hnew : x.NewWithConfig { poolCfg0 with MaxConns := 20 } with _ | err
    · rcases hping : x.Ping ⟨{ poolCfg0 with MaxConns := 20 }⟩ with _ | err1 <;>
        simp [maxConnsSet]
    · simp [maxConnsSet]
  · simp only [h0, if_false]
    rcases hnew : x.NewWithConfig
        { poolCfg0 with MaxConns := wrapInt32 cfg.Database.ConnPoolSize } with _ | err
    · rcases hping : x.Ping
          ⟨{ poolCfg0 with MaxConns := wrapInt32 cfg.Database.ConnPoolSize }⟩ with _ | err1 <;>
        simp [maxConnsSet]
    · simp [maxConnsSet]

theorem maxConnsSet_append (s t : List Step) :
    maxConnsSet (s ++ t) = maxConnsSet s ++ maxConnsSet t := by
  induction s with
  | nil => rfl
  | cons a s ih => cases a <;> simp [maxConnsSet, ih]

/-- The pool sizes handed to `pgxpool.NewWithConfig` by a call of `StartStorage`
with a Postgres database type, once the connection string parses. -/
theorem StartStorage_maxConnsSet (x : Externals) (cfg : Config) (storage : Storage)
    (parentLogger : Logger) (poolCfg0 : PoolConfig)
    (htype : cfg.Database.DbType = "postgres" ∨ cfg.Database.DbType = "sql")
    (hparse : x.ParseConfig (connStr cfg) = .ok poolCfg0) :
    maxConnsSet (StartStorage x cfg storage parentLogger).2.2
      = [if cfg.Database.ConnPoolSize = 0 then 20 else wrapInt32 cfg.Database.ConnPoolSize] := by
  have h := startPostgres_maxConnsSet x cfg
    { storage with logger := some (parentLogger ++ [("component", "database")]) } poolCfg0 hparse
  unfold StartStorage
  simp only
  rw [if_pos htype]
  generalize startPostgres x cfg
    { storage with logger := some (parentLogger ++ [("component", "database")]) } = r at h
  rcases r with ⟨storage2, err, steps⟩
  simp only at h
  cases err with
  | none =>
    simp only [maxConnsSet_append, h]
    simp [maxConnsSet]
  | some e =>
    simp only [maxConnsSet_append, h]
    simp [maxConnsSet]

/-- C6 (amended): in a call of `StartStorage` for a Postgres database (type
`postgres` or `sql`; `StartStorage` gives the storage struct its logger and
then calls `startPostgres`), once the connection string parses,
`startPostgres` hands `pgxpool.NewWithConfig` exactly one configuration, whose
`MaxConns` is 20 when the configured pool size is zero, is exactly `N` for
every configured pool size `N` with `0 < N ≤ 2147483647`, and in general, for
`N ≠ 0`, is `int32(N)`, `N` wrapped to 32 bits. -/
theorem StartStorage_sets_MaxConns (x : Externals) (cfg : Config) (storage : Storage)
    (parentLogger : Logger) (poolCfg0 : PoolConfig)
    (htype : cfg.Database.DbType = "postgres" ∨ cfg.Database.DbType = "sql")
    (hparse : x.ParseConfig (connStr cfg) = .ok poolCfg0) :
    (cfg.Database.ConnPoolSize = 0 →
      maxConnsSet (StartStorage x cfg storage parentLogger).2.2 = [20]) ∧
    (0 < cfg.Database.ConnPoolSize → cfg.Database.ConnPoolSize ≤ 2147483647 →
      maxConnsSet (StartStorage x cfg storage parentLogger).2.2
        = [cfg.Database.ConnPoolSize]) ∧
    (cfg.Database.ConnPoolSize ≠ 0 →
      maxConnsSet (StartStorage x cfg storage parentLogger).2.2
        = [wrapInt32 cfg.Database.ConnPoolSize]) := by
  have h := StartStorage_maxConnsSet x cfg storage parentLogger poolCfg0 htype hparse
  refine ⟨?_, ?_, ?_⟩
  · intro h0
    rw [h, if_pos h0]
  · intro hpos hle
    rw [h, if_neg (by omega), wrapInt32_of_inRange _ (by omega) (by omega)]
  · intro hne
    rw [h, if_neg hne]

/-- Witness for C6: through `StartStorage`, the default configuration asks for
20 connections and gets 20; a configuration with pool size zero gets 20 as
well, and one with pool size 50 gets 50. -/
theorem StartStorage_sets_MaxConns_witness :
    maxConnsSet (StartStorage Externals.healthy Config.default Storage.zero []).2.2 = [20] ∧
    maxConnsSet (StartStorage Externals.healthy
      { Config.default with Database := { Config.default.Database with ConnPoolSize := 0 } }
      Storage.zero []).2.2 = [20] ∧
    maxConnsSet (StartStorage Externals.healthy
      { Config.default with Database := { Config.default.Database with ConnPoolSize := 50 } }
      Storage.zero []).2.2 = [50] :=
  ⟨(StartStorage_sets_MaxConns Externals.healthy Config.default Storage.zero []
      ⟨connStr Config.default, 4⟩ (Or.inl rfl) rfl).2.1 (by decide) (by decide),
    (StartStorage_sets_MaxConns Externals.healthy
      { Config.default with Database := { Config.default.Database with ConnPoolSize := 0 } }
      Storage.zero [] ⟨connStr Config.default, 4⟩ (Or.inl rfl) rfl).1 rfl,
    (StartStorage_sets_MaxConns Externals.healthy
      { Config.default with Database := { Config.default.Database with ConnPoolSize := 50 } }
      Storage.zero [] ⟨connStr Config.default, 4⟩ (Or.inl rfl) rfl).2.1 (by decide)
      (by decide)⟩

/-- Counterexample to C6 as stated: through `StartStorage`, with a configured
pool size of `2147483648` (a valid 64-bit Go `int`, and positive) the pool is
given `MaxConns = -2147483648`. -/
theorem StartStorage_truncates_pool_size :
    maxConnsSet (StartStorage Externals.healthy
      { Config.default with
        Database := { Config.default.Database with ConnPoolSize := 2147483648 } }
      Storage.zero []).2.2 = [-2147483648] ∧
    maxConnsSet (StartStorage Externals.healthy
      { Config.default with
        Database := { Config.default.Database with ConnPoolSize := 2147483648 } }
      Storage.zero []).2.2 ≠ [2147483648] := by
  decide

theorem startPostgres_Close (x : Externals) (cfg : Config) (stg : Storage) :
    (startPostgres x cfg stg).1.Conns.Close = stg.Conns.Close ∧
    (startPostgres x cfg stg).1.Cache = stg.Cache := by
  unfold startPostgres
  rcases x.ParseConfig (connStr cfg) with err | poolCfg0
  · exact ⟨rfl, rfl⟩
  · simp only
    split
    · exact ⟨rfl, rfl⟩
    · split <;> exact ⟨rfl, rfl⟩

/-- The function `StartStorage` never assigns `Conns.Close` nor `Cache`. -/
theorem StartStorage_Close (x : Externals) (cfg : Config) (storage : Storage)
    (parentLogger : Logger) :
    (StartStorage x cfg storage parentLogger).1.Conns.Close = storage.Conns.Close ∧
    (StartStorage x cfg storage parentLogger).1.Cache = storage.Cache := by
  unfold StartStorage
  simp only
  split
  · have h := startPostgres_Close x cfg
      { storage with logger := some (parentLogger ++ [("component", "database")]) }
    split
    · next heq => rw [heq] at h; exact h
    · next heq => rw [heq] at h; exact h
  · exact ⟨rfl, rfl⟩

end database

/-! ## Theorems: package `main` -/

namespace main

open config database api

theorem lifecycle_append (s t : List Step) : lifecycle (s ++ t) = lifecycle s ++ lifecycle t := by
  simp [lifecycle]

theorem lifecycle_map_retry (t : List (util.RetryEvent GoError)) :
    lifecycle (t.map Step.retry) = [] := by
  induction t with
  | nil => rfl
  | cons a t ih =>
    simp only [lifecycle] at ih
    simp [lifecycle, List.filter_cons, isLifecycle, ih]

theorem lifecycle_warned (warned : Option String) :
    lifecycle (warned.map Step.stdLog).toList = [] := by
  cases warned <;> simp [lifecycle, isLifecycle]

theorem lifecycle_startPostgres (x : database.Externals) (cfg : Config) (stg : Storage) :
    lifecycle (startPostgres x cfg stg).2.2 = [] := by
  unfold startPostgres
  rcases x.ParseConfig (connStr cfg) with err | poolCfg0
  · simp [lifecycle, isLifecycle]
  · simp only
    split
    · split <;> simp [lifecycle, isLifecycle]
    · split <;> (try split) <;> simp [lifecycle, isLifecycle]

theorem lifecycle_StartStorage (x : database.Externals) (cfg : Config) (storage : Storage)
    (parentLogger : Logger) :
    lifecycle (StartStorage x cfg storage parentLogger).2.2 = [.StartStorage] := by
  unfold StartStorage
  simp only
  split
  · have h := lifecycle_startPostgres x cfg
      { storage with logger := some (parentLogger ++ [("component", "database")]) }
    split
    · next heq =>
      rw [heq] at h
      simp only at h
      simp only [lifecycle_append, h]
      simp [lifecycle, isLifecycle]
    · next heq =>
      rw [heq] at h
      simp only at h
      simp only [lifecycle_append, h]
      simp [lifecycle, isLifecycle]
  · simp [lifecycle, isLifecycle]

theorem lifecycle_InitRouter (x : api.Externals) (db : Storage) (cfg : Config) (logger : Logger) :
    lifecycle (InitRouter x db cfg logger).2.2 = [.InitRouter] := by
  unfold InitRouter
  rcases x.Getrlimit with err | rLimit0
  · simp [lifecycle, isLifecycle]
  · simp only
    rcases x.Setrlimit { rLimit0 with Cur := rLimit0.Max / 2 } with _ | err
    · cases hd : cfg.Server.DevMode <;>
        simp [initSessionStore, setUpRoutes, lifecycle, isLifecycle]
    · simp [lifecycle, isLifecycle]

theorem lifecycle_startLogger (w : World) (cfg : Config) :
    lifecycle (startLogger w cfg).2.2 = [.startLogger] := by
  unfold startLogger
  simp only
  split
  · simp [lifecycle, isLifecycle]
  · split <;> simp [lifecycle, isLifecycle]

theorem lifecycle_deferredLoggerClose (w : World) :
    lifecycle (deferredLoggerClose w) = [.Sync, .logfileClose] := by
  unfold deferredLoggerClose
  cases w.Sync <;> cases w.logfileClose <;> simp [lifecycle, isLifecycle]

theorem lifecycle_awaitShutdown (w : World) (logger : Logger) (ctx : Context) :
    lifecycle (awaitShutdown w logger ctx) =
      match w.trigger with
      | .serverErrors err => [.recvServerErrors err, .Shutdown ctx]
      | .ctxDone =>
        [.recvCtxDone, .Shutdown ctx] ++ (if (w.Shutdown ctx).isSome then [.Close] else []) := by
  unfold awaitShutdown
  rcases w.trigger with err | _
  · by_cases he : err = some ErrServerClosed <;>
      cases w.Shutdown ctx <;> simp [he, lifecycle, isLifecycle]
  · cases w.Shutdown ctx <;> cases w.Close <;> simp [lifecycle, isLifecycle]

/-- The initial-delay, single-attempt retry of `StartStorage` in `run` leaves
the storage struct and the steps of the one call of `StartStorage`. -/
theorem storage_retry_state (w : World) (cfg : Config) (logger : Logger) :
    (util.RetryOperation (storageOperation w cfg logger) GoError.Error w.retryCtxDone 1
        (10 * Millisecond) (Storage.zero, [])).state
      = ((StartStorage w.database cfg Storage.zero logger).1,
          (StartStorage w.database cfg Storage.zero logger).2.2) := by
  rw [util.RetryOperation_one_state]
  simp [storageOperation]

theorem storage_retry_err (w : World) (cfg : Config) (logger : Logger) :
    (util.RetryOperation (storageOperation w cfg logger) GoError.Error w.retryCtxDone 1
        (10 * Millisecond) (Storage.zero, [])).err.isSome
      = (StartStorage w.database cfg Storage.zero logger).2.1.isSome := by
  rw [util.RetryOperation_one_err]
  simp [storageOperation]

/-- The storage struct that `run` hands to the shutdown code has no
`Conns.Close`: closing it panics. -/
theorem closeStorage_after_StartStorage (x : database.Externals) (cfg : Config)
    (parentLogger logger : Logger) :
    closeStorage (StartStorage x cfg Storage.zero parentLogger).1 logger
      = (.panicked nilDereference, [.panicked nilDereference]) := by
  have h := (StartStorage_Close x cfg Storage.zero parentLogger).1
  unfold closeStorage
  rw [h]
  rfl

end main

namespace main

open config database api

/-- How the part of `run` after the logger was started ends, and its life-cycle
steps, by the first of storage and router initialisation that fails. -/
theorem runWithLogger_spec (w : World) (cfg : Config) (logger : Logger) :
    (((StartStorage w.database cfg Storage.zero logger).2.1.isSome = true →
        (∃ err, (runWithLogger w cfg logger).1 = .returned (some err)) ∧
        lifecycle (runWithLogger w cfg logger).2 = [.StartStorage]) ∧
      ((StartStorage w.database cfg Storage.zero logger).2.1.isSome = false →
        (InitRouter w.api (StartStorage w.database cfg Storage.zero logger).1 cfg
          logger).2.1.isSome = true →
        (∃ err, (runWithLogger w cfg logger).1 = .returned (some err)) ∧
        lifecycle (runWithLogger w cfg logger).2 = [.StartStorage, .InitRouter]) ∧
      ((StartStorage w.database cfg Storage.zero logger).2.1.isSome = false →
        (InitRouter w.api (StartStorage w.database cfg Storage.zero logger).1 cfg
          logger).2.1.isSome = false →
        (runWithLogger w cfg logger).1 = .panicked nilDereference ∧
        lifecycle (runWithLogger w cfg logger).2 =
          [.StartStorage, .InitRouter,
            (if cfg.Server.DevMode then
              Step.goStart (cfg.Server.Host ++ ":" ++ toString cfg.Server.Port)
            else Step.goStartAutoTLS (cfg.Server.Host ++ ":" ++ toString cfg.Server.Port)),
            .WithTimeout (10 * Second)]
          ++ lifecycle (awaitShutdown w logger shutdownCtx)
          ++ [.panicked nilDereference, .cancel])) := by
  have hs := storage_retry_state w cfg logger
  have he := storage_retry_err w cfg logger
  have hl := lifecycle_StartStorage w.database cfg Storage.zero logger
  have hc := closeStorage_after_StartStorage w.database cfg logger logger
  unfold runWithLogger
  simp only
  generalize util.RetryOperation (storageOperation w cfg logger) GoError.Error w.retryCtxDone 1
    (10 * Millisecond) (Storage.zero, []) = r at hs he
  rcases r with ⟨rerr, rstate, rtrace⟩
  simp only at hs he
  subst hs
  have hr := lifecycle_map_retry rtrace
  generalize StartStorage w.database cfg Storage.zero logger = started at he hl hc
  rcases started with ⟨storage, serr, ssteps⟩
  simp only at he hl hc ⊢
  cases rerr with
  | some ferr =>
    have hserr : serr.isSome = true := by rw [← he]; rfl
    refine ⟨fun _ => ⟨⟨_, rfl⟩, ?_⟩, fun h => ?_, fun h => ?_⟩
    · simp only [lifecycle_append, hl, hr]
      simp [lifecycle, isLifecycle]
    · rw [hserr] at h; cases h
    · rw [hserr] at h; cases h
  | none =>
    have hserr : serr.isSome = false := by rw [← he]; rfl
    have hi := lifecycle_InitRouter w.api storage cfg logger
    generalize InitRouter w.api storage cfg logger = routed at hi
    rcases routed with ⟨e, ierr, isteps⟩
    simp only at hi ⊢
    refine ⟨fun h => ?_, fun _ h => ?_, fun _ h => ?_⟩
    · rw [hserr] at h; cases h
    · cases ierr with
      | none => cases h
      | some err =>
        refine ⟨⟨_, rfl⟩, ?_⟩
        simp only [lifecycle_append, hl, hr, hi]
        simp [lifecycle, isLifecycle]
    · cases ierr with
      | some err => cases h
      | none =>
        simp only [serve, hc]
        refine ⟨trivial, ?_⟩
        simp only [lifecycle_append, hl, hr, hi]
        cases cfg.Server.DevMode <;> simp [lifecycle, isLifecycle]

end main

namespace main

open config database api

/-- How `run` ends and its life-cycle steps, by the first bootstrap step that
fails. When none fails the listener is launched, one shutdown trigger is
taken, and closing the storage panics. -/
theorem run_spec (w : World) :
    (failedStep w = some .LoadConfig →
      (∃ err, (run w).1 = .returned (some err)) ∧ lifecycle (run w).2 = [.LoadConfig]) ∧
    (failedStep w = some .Validate →
      (∃ err, (run w).1 = .returned (some err)) ∧
      lifecycle (run w).2 = [.LoadConfig, .Validate]) ∧
    (failedStep w = some .startLogger →
      (∃ err, (run w).1 = .returned (some err)) ∧
      lifecycle (run w).2 = [.LoadConfig, .Validate, .NotifyContext, .startLogger, .stop]) ∧
    (failedStep w = some .StartStorage →
      (∃ err, (run w).1 = .returned (some err)) ∧
      lifecycle (run w).2 = [.LoadConfig, .Validate, .NotifyContext, .startLogger,
        .StartStorage, .Sync, .logfileClose, .stop]) ∧
    (failedStep w = some .InitRouter →
      (∃ err, (run w).1 = .returned (some err)) ∧
      lifecycle (run w).2 = [.LoadConfig, .Validate, .NotifyContext, .startLogger,
        .StartStorage, .InitRouter, .Sync, .logfileClose, .stop]) ∧
    (failedStep w = none →
      (run w).1 = .panicked nilDereference ∧
      lifecycle (run w).2 =
        [.LoadConfig, .Validate, .NotifyContext, .startLogger, .StartStorage, .InitRouter,
          (if (servedConfig w).Server.DevMode then
            Step.goStart ((servedConfig w).Server.Host ++ ":"
              ++ toString (servedConfig w).Server.Port)
          else Step.goStartAutoTLS ((servedConfig w).Server.Host ++ ":"
              ++ toString (servedConfig w).Server.Port)),
          .WithTimeout (10 * Second)]
        ++ (match w.trigger with
          | .serverErrors err => [.recvServerErrors err, .Shutdown shutdownCtx]
          | .ctxDone =>
            [.recvCtxDone, .Shutdown shutdownCtx]
              ++ (if (w.Shutdown shutdownCtx).isSome then [.Close] else []))
        ++ [.panicked nilDereference, .cancel, .Sync, .logfileClose, .stop]) := by
  unfold failedStep run servedConfig
  simp only
  generalize LoadConfig w.config w.vars Config.zero = loaded
  rcases loaded with ⟨cfg0, vars1, lerr, warned⟩
  have hw := lifecycle_warned warned
  cases lerr with
  | some err =>
    simp only [Option.isSome_some, if_true]
    refine ⟨fun _ => ⟨⟨_, rfl⟩, ?_⟩, ?_, ?_, ?_, ?_, ?_⟩ <;> try (intro h; cases h)
    simp only [lifecycle_append, hw]
    simp [lifecycle, isLifecycle]
  | none =>
    simp only [Option.isSome_none, Bool.false_eq_true, if_false]
    cases hv : cfg0.Validate w.config.ParseIP with
    | some err =>
      simp only [Option.isSome_some, if_true]
      refine ⟨?_, fun _ => ⟨⟨_, rfl⟩, ?_⟩, ?_, ?_, ?_, ?_⟩ <;> try (intro h; cases h)
      simp only [lifecycle_append, hw]
      simp [lifecycle, isLifecycle]
    | none =>
      simp only [Option.isSome_none, Bool.false_eq_true, if_false]
      have hsl := lifecycle_startLogger w cfg0
      generalize startLogger w cfg0 = sl at hsl
      rcases sl with ⟨cfg, res, steps⟩
      simp only at hsl
      cases res with
      | error err =>
        simp only
        refine ⟨?_, ?_, fun _ => ⟨⟨_, rfl⟩, ?_⟩, ?_, ?_, ?_⟩ <;> try (intro h; cases h)
        simp only [lifecycle_append, hw, hsl]
        simp [lifecycle, isLifecycle]
      | ok logger =>
        simp only
        have hd := lifecycle_deferredLoggerClose w
        obtain ⟨h1, h2, h3⟩ := runWithLogger_spec w cfg logger
        cases hs : (StartStorage w.database cfg Storage.zero logger).2.1.isSome with
        | true =>
          obtain ⟨hout, hlife⟩ := h1 hs
          simp only [if_true]
          refine ⟨?_, ?_, ?_, fun _ => ⟨hout, ?_⟩, ?_, ?_⟩ <;> try (intro h; cases h)
          simp only [lifecycle_append, hw, hsl, hlife, hd]
          simp [lifecycle, isLifecycle]
        | false =>
          simp only [Bool.false_eq_true, if_false]
          cases hi : (InitRouter w.api (StartStorage w.database cfg Storage.zero logger).1 cfg
              logger).2.1.isSome with
          | true =>
            obtain ⟨hout, hlife⟩ := h2 hs hi
            simp only [if_true]
            refine ⟨?_, ?_, ?_, ?_, fun _ => ⟨hout, ?_⟩, ?_⟩ <;> try (intro h; cases h)
            simp only [lifecycle_append, hw, hsl, hlife, hd]
            simp [lifecycle, isLifecycle]
          | false =>
            obtain ⟨hout, hlife⟩ := h3 hs hi
            simp only [Bool.false_eq_true, if_false]
            refine ⟨?_, ?_, ?_, ?_, ?_, fun _ => ⟨hout, ?_⟩⟩ <;>
              try (intro h; cases h)
            simp only [lifecycle_append, hw, hsl, hlife, hd, lifecycle_awaitShutdown]
            simp [lifecycle, isLifecycle]

end main

namespace main

open config database api

theorem mem_lifecycle (s : Step) (steps : List Step) (hs : isLifecycle s = true) :
    s ∈ lifecycle steps ↔ s ∈ steps := by
  simp [lifecycle, List.mem_filter, hs]

theorem shutdownCalls_append (s t : List Step) :
    shutdownCalls (s ++ t) = shutdownCalls s ++ shutdownCalls t := by
  induction s with
  | nil => rfl
  | cons a s ih => cases a <;> simp [shutdownCalls, ih]

theorem shutdownCalls_lifecycle (steps : List Step) :
    shutdownCalls (lifecycle steps) = shutdownCalls steps := by
  induction steps with
  | nil => rfl
  | cons a steps ih =>
    simp only [lifecycle] at ih
    cases a <;> simp [lifecycle, List.filter_cons, isLifecycle, shutdownCalls, ih]

theorem exists_returned_error_iff (w : World) :
    (∃ err, (run w).1 = .returned (some err)) ↔ failedStep w ≠ none := by
  obtain ⟨h1, h2, h3, h4, h5, h6⟩ := run_spec w
  constructor
  · rintro ⟨err, herr⟩ hnone
    rw [(h6 hnone).1] at herr
    cases herr
  · intro hne
    cases hf : failedStep w with
    | none => exact absurd hf hne
    | some b =>
      cases b
      · exact (h1 hf).1
      · exact (h2 hf).1
      · exact (h3 hf).1
      · exact (h4 hf).1
      · exact (h5 hf).1

/-- C7 (the code at the failing input): with the default configuration and a
database that answers, `StartStorage` returns nil and has set the four
operation sets, but `Conns.Close` is still nil, so the shutdown code of `run`
panics when it calls `CloseConns` on it. -/
theorem StartStorage_leaves_Close_nil :
    (StartStorage database.Externals.healthy Config.default Storage.zero []).2.1 = none ∧
    (StartStorage database.Externals.healthy Config.default Storage.zero []).1.Conns.Close
      = none ∧
    (StartStorage database.Externals.healthy Config.default Storage.zero []).1.Conns.AccTableOps
      ≠ none ∧
    (StartStorage database.Externals.healthy Config.default Storage.zero []).1.Conns.EvTableOps
      ≠ none ∧
    (StartStorage database.Externals.healthy Config.default
      Storage.zero []).1.Conns.SocialTableOps ≠ none ∧
    (StartStorage database.Externals.healthy Config.default Storage.zero []).1.Conns.MapTableOps
      ≠ none ∧
    (closeStorage (StartStorage database.Externals.healthy Config.default Storage.zero []).1
      []).1 = .panicked nilDereference := by
  decide

/-- C8: `run` returns a non-nil error, and `main` exits with status 1, exactly
when a bootstrap step fails (configuration load, validation, logger start,
storage initialisation with its single attempt, router initialisation). The
life-cycle steps of the run then stop at the step that failed: no later
bootstrap function is called, only the deferred calls registered so far run,
and the listener is never started. -/
theorem run_error_iff_bootstrap_fails (w : World) :
    ((∃ err, (run w).1 = .returned (some err)) ↔ failedStep w ≠ none) ∧
    ((main w).1 = 1 ↔ failedStep w ≠ none) ∧
    (failedStep w = some .LoadConfig → lifecycle (run w).2 = [.LoadConfig]) ∧
    (failedStep w = some .Validate → lifecycle (run w).2 = [.LoadConfig, .Validate]) ∧
    (failedStep w = some .startLogger →
      lifecycle (run w).2 = [.LoadConfig, .Validate, .NotifyContext, .startLogger, .stop]) ∧
    (failedStep w = some .StartStorage →
      lifecycle (run w).2 = [.LoadConfig, .Validate, .NotifyContext, .startLogger,
        .StartStorage, .Sync, .logfileClose, .stop]) ∧
    (failedStep w = some .InitRouter →
      lifecycle (run w).2 = [.LoadConfig, .Validate, .NotifyContext, .startLogger,
        .StartStorage, .InitRouter, .Sync, .logfileClose, .stop]) ∧
    (failedStep w ≠ none →
      ∀ addr, Step.goStart addr ∉ (run w).2 ∧ Step.goStartAutoTLS addr ∉ (run w).2) := by
  obtain ⟨h1, h2, h3, h4, h5, h6⟩ := run_spec w
  have hiff := exists_returned_error_iff w
  refine ⟨hiff, ?_, fun h => (h1 h).2, fun h => (h2 h).2, fun h => (h3 h).2,
    fun h => (h4 h).2, fun h => (h5 h).2, ?_⟩
  · rw [← hiff]
    show exitStatus (run w).1 = 1 ↔ _
    constructor
    · intro hex
      rcases hout : (run w).1 with err | msg
      · cases err with
        | none => rw [hout] at hex; cases hex
        | some err => exact ⟨err, rfl⟩
      · rw [hout] at hex; cases hex
    · rintro ⟨err, herr⟩
      rw [herr]
      rfl
  · intro hne addr
    rw [← mem_lifecycle _ _ (show isLifecycle (.goStart addr) = true from rfl),
      ← mem_lifecycle _ _ (show isLifecycle (.goStartAutoTLS addr) = true from rfl)]
    cases hf : failedStep w with
    | none => exact absurd hf hne
    | some b =>
      cases b
      · rw [(h1 hf).2]; simp
      · rw [(h2 hf).2]; simp
      · rw [(h3 hf).2]; simp
      · rw [(h4 hf).2]; simp
      · rw [(h5 hf).2]; simp

/-- Witness for C8: in a world that loads a configuration with server port 80,
validation fails; `run` stops after `Validate` and `main` exits with status 1. -/
theorem run_error_iff_bootstrap_fails_witness :
    failedStep { World.healthy with
      config := config.Externals.fills
        { Config.default with Server := { Config.default.Server with Port := 80 } } }
      = some .Validate ∧
    (main { World.healthy with
      config := config.Externals.fills
        { Config.default with Server := { Config.default.Server with Port := 80 } } }).1 = 1 ∧
    lifecycle (run { World.healthy with
      config := config.Externals.fills
        { Config.default with Server := { Config.default.Server with Port := 80 } } }).2
      = [.LoadConfig, .Validate] :=
  ⟨by decide,
    (run_error_iff_bootstrap_fails { World.healthy with
      config := config.Externals.fills
        { Config.default with Server := { Config.default.Server with Port := 80 } } }).2.1.mpr
      (by decide),
    (run_error_iff_bootstrap_fails { World.healthy with
      config := config.Externals.fills
        { Config.default with Server := { Config.default.Server with Port := 80 } } }).2.2.2.1
      (by decide)⟩

/-- C9 (the code at the failing input): in a world where every bootstrap step
succeeds and a signal arrives, `echoRouter.Shutdown` is called once, but the
storage connections are never closed: `CloseConns` is called on the nil
`Conns.Close`, `run` panics and the process ends with status 2. -/
theorem run_healthy_never_closes_storage :
    failedStep World.healthy = none ∧
    shutdownCalls (run World.healthy).2 = [shutdownCtx] ∧
    Step.CloseConns ∉ (run World.healthy).2 ∧
    (run World.healthy).1 = .panicked nilDereference ∧
    (main World.healthy).1 = 2 := by
  decide

/-- C10: when every bootstrap step succeeds and the `select` of `run` takes the
signal case, `echoRouter.Shutdown` is called exactly once, with the context
`context.WithTimeout(context.Background(), 10*time.Second)`, and
`echoRouter.Close` is called if and only if that `Shutdown` returned an error
(and then once). -/
theorem run_signal_shutdown (w : World) (hserve : failedStep w = none)
    (hsig : w.trigger = .ctxDone) :
    shutdownCalls (run w).2 = [.WithTimeout .Background (10 * 1000000000)] ∧
    (Step.Close ∈ (run w).2 ↔ w.Shutdown (.WithTimeout .Background (10 * 1000000000)) ≠ none) ∧
    (run w).2.count Step.Close ≤ 1 := by
  have h := ((run_spec w).2.2.2.2.2 hserve).2
  rw [hsig] at h
  simp only at h
  have hctx : shutdownCtx = .WithTimeout .Background (10 * 1000000000) := rfl
  rw [← hctx]
  refine ⟨?_, ?_, ?_⟩
  · rw [← shutdownCalls_lifecycle, h]
    cases hd : (servedConfig w).Server.DevMode <;>
      cases hsh : (w.Shutdown shutdownCtx).isSome <;>
      simp [shutdownCalls_append, shutdownCalls]
  · rw [← mem_lifecycle _ _ (show isLifecycle .Close = true from rfl), h]
    cases hd : (servedConfig w).Server.DevMode <;>
      cases hsh : w.Shutdown shutdownCtx <;> simp
  · have hcount : (lifecycle (run w).2).count Step.Close = (run w).2.count Step.Close :=
      List.count_filter (show isLifecycle .Close = true from rfl)
    rw [← hcount, h]
    cases hd : (servedConfig w).Server.DevMode <;>
      cases hsh : (w.Shutdown shutdownCtx).isSome <;>
      simp [List.count_cons]

/-- Witness for C10: in the world where everything succeeds and a signal
arrives, `Shutdown` gets the 10-second context and `Close` is not called. -/
theorem run_signal_shutdown_witness :
    shutdownCalls (run World.healthy).2 = [.WithTimeout .Background (10 * 1000000000)] ∧
    Step.Close ∉ (run World.healthy).2 := by
  have h := run_signal_shutdown World.healthy (by decide) rfl
  refine ⟨h.1, ?_⟩
  rw [h.2.1]
  decide

end main

/-! ## Theorems: the shutdown of `run` -/

namespace main

open config database api

theorem errorLogs_append (s t : List Step) :
    errorLogs (s ++ t) = errorLogs s ++ errorLogs t := by
  induction s with
  | nil => rfl
  | cons a s ih =>
    cases a with
    | zapLog logger level msg fields => cases level <;> simp [errorLogs, ih]
    | _ => simp [errorLogs, ih]

theorem errorLogs_map_retry (t : List (util.RetryEvent GoError)) :
    errorLogs (t.map Step.retry) = [] := by
  induction t with
  | nil => rfl
  | cons a t ih => simp [errorLogs, ih]

theorem errorLogs_warned (warned : Option String) :
    errorLogs (warned.map Step.stdLog).toList = [] := by
  cases warned <;> simp [errorLogs]

theorem errorLogs_startPostgres (x : database.Externals) (cfg : Config) (stg : Storage) :
    errorLogs (startPostgres x cfg stg).2.2 = [] := by
  unfold startPostgres
  rcases x.ParseConfig (connStr cfg) with err | poolCfg0
  · simp [errorLogs]
  · simp only
    split
    · split <;> simp [errorLogs]
    · split <;> (try split) <;> simp [errorLogs]

theorem errorLogs_StartStorage (x : database.Externals) (cfg : Config) (storage : Storage)
    (parentLogger : Logger) :
    errorLogs (StartStorage x cfg storage parentLogger).2.2 = [] := by
  unfold StartStorage
  simp only
  split
  · have h := errorLogs_startPostgres x cfg
      { storage with logger := some (parentLogger ++ [("component", "database")]) }
    split
    · next heq =>
      rw [heq] at h
      simp only at h
      simp only [errorLogs_append, h]
      simp [errorLogs]
    · next heq =>
      rw [heq] at h
      simp only at h
      simp only [errorLogs_append, h]
      simp [errorLogs]
  · simp [errorLogs]

theorem errorLogs_InitRouter (x : api.Externals) (db : Storage) (cfg : Config) (logger : Logger) :
    errorLogs (InitRouter x db cfg logger).2.2 = [] := by
  unfold InitRouter
  rcases x.Getrlimit with err | rLimit0
  · simp [errorLogs]
  · simp only
    rcases x.Setrlimit { rLimit0 with Cur := rLimit0.Max / 2 } with _ | err
    · cases hd : cfg.Server.DevMode <;> simp [initSessionStore, setUpRoutes, errorLogs]
    · simp [errorLogs]

theorem errorLogs_startLogger (w : World) (cfg : Config) :
    errorLogs (startLogger w cfg).2.2 = [] := by
  unfold startLogger
  simp only
  split
  · simp [errorLogs]
  · split <;> simp [errorLogs]

theorem errorLogs_deferredLoggerClose (w : World) :
    errorLogs (deferredLoggerClose w) = [] := by
  unfold deferredLoggerClose
  cases w.Sync <;> cases w.logfileClose <;> simp [errorLogs]

theorem errorLogs_awaitShutdown (w : World) (logger : Logger) (ctx : Context) :
    errorLogs (awaitShutdown w logger ctx) =
      match w.trigger with
      | .serverErrors err =>
        (if err ≠ some ErrServerClosed then
            ["Fatal server error listening to API requests:" ++ sprintError err]
          else [])
          ++ (match w.Shutdown ctx with
            | some err1 => ["Error calling server Shutdown(): " ++ err1.Error]
            | none => [])
      | .ctxDone =>
        match w.Shutdown ctx with
        | some err1 =>
          ["Error calling server Shutdown(): " ++ err1.Error]
            ++ (match w.Close with
              | some err2 => ["Error during forecul shutdown: " ++ err2.Error]
              | none => [])
        | none => [] := by
  unfold awaitShutdown
  rcases w.trigger with err | _
  · by_cases he : err = some ErrServerClosed <;>
      cases w.Shutdown ctx <;> simp [he, errorLogs]
  · cases w.Shutdown ctx <;> cases w.Close <;> simp [errorLogs]

/-- The part of `run` after the logger was started, when storage and router
initialisation succeed: the steps are a bootstrap part without error-level log
lines, then the `select` of `run`, then the panic of the storage close and the
deferred `cancel`. -/
theorem runWithLogger_serving (w : World) (cfg : Config) (logger : Logger)
    (hs : (StartStorage w.database cfg Storage.zero logger).2.1.isSome = false)
    (hi : (InitRouter w.api (StartStorage w.database cfg Storage.zero logger).1 cfg
      logger).2.1.isSome = false) :
    ∃ pre, (runWithLogger w cfg logger).2
        = pre ++ awaitShutdown w logger shutdownCtx ++ [.panicked nilDereference, .cancel] ∧
      errorLogs pre = [] := by
  have hst := storage_retry_state w cfg logger
  have he := storage_retry_err w cfg logger
  have hl := errorLogs_StartStorage w.database cfg Storage.zero logger
  have hc := closeStorage_after_StartStorage w.database cfg logger logger
  unfold runWithLogger
  simp only
  generalize util.RetryOperation (storageOperation w cfg logger) GoError.Error w.retryCtxDone 1
    (10 * Millisecond) (Storage.zero, []) = r at hst he
  rcases r with ⟨rerr, rstate, rtrace⟩
  simp only at hst he
  subst hst
  have hr := errorLogs_map_retry rtrace
  generalize StartStorage w.database cfg Storage.zero logger = started at he hl hc hs hi
  rcases started with ⟨storage, serr, ssteps⟩
  simp only at he hl hc hs hi ⊢
  cases rerr with
  | some ferr =>
    rw [hs] at he
    cases he
  | none =>
    have hir := errorLogs_InitRouter w.api storage cfg logger
    generalize InitRouter w.api storage cfg logger = routed at hir hi
    rcases routed with ⟨e, ierr, isteps⟩
    simp only at hir hi ⊢
    cases ierr with
    | some err => cases hi
    | none =>
      simp only [serve, hc]
      refine ⟨[.zapLog (some logger) .info "Logger constructed successfully" [],
          .zapLog (some logger) .info "Server is running with the following configuration:"
            [(".env config file path", cfg.CfgPaths.EnvPath),
              ("YAML config file path", cfg.CfgPaths.CfgPath),
              ("Server Host", cfg.Server.Host),
              ("Server Port", toString cfg.Server.Port),
              ("Server Development Mode", toString cfg.Server.DevMode),
              ("Log file path", cfg.Server.LogFile),
              ("DB Host", cfg.Database.Host),
              ("DB Port", toString cfg.Database.Port)],
          .zapLog (some logger) .info "Initializing storage" [],
          .RetryOperation 1 (10 * Millisecond)]
        ++ ssteps ++ rtrace.map Step.retry
        ++ [.zapLog (some logger) .info "Initializing router" []] ++ isteps
        ++ (if cfg.Server.DevMode then
            [Step.goStart (cfg.Server.Host ++ ":" ++ toString cfg.Server.Port)]
          else [Step.goStartAutoTLS (cfg.Server.Host ++ ":" ++ toString cfg.Server.Port)])
        ++ [.WithTimeout (10 * Second)], ?_, ?_⟩
      · simp [List.append_assoc]
      · simp only [errorLogs_append, hl, hr, hir]
        cases cfg.Server.DevMode <;> simp [errorLogs]

/-- The steps of `run` when every bootstrap step succeeds: a bootstrap part
without error-level log lines, then the `select` of `run`, then the panic of
the storage close and the deferred calls. -/
theorem run_serving_trace (w : World) (hserve : failedStep w = none) :
    ∃ pre logger, (run w).2
        = pre ++ awaitShutdown w logger shutdownCtx
          ++ ([.panicked nilDereference, .cancel] ++ deferredLoggerClose w ++ [.stop]) ∧
      errorLogs pre = [] := by
  unfold failedStep at hserve
  unfold run
  simp only at hserve ⊢
  generalize LoadConfig w.config w.vars Config.zero = loaded at hserve ⊢
  rcases loaded with ⟨cfg0, vars1, lerr, warned⟩
  have hw := errorLogs_warned warned
  cases lerr with
  | some err => simp at hserve
  | none =>
    simp only [Option.isSome_none, Bool.false_eq_true, if_false] at hserve
    cases hv : cfg0.Validate w.config.ParseIP with
    | some err => simp [hv] at hserve
    | none =>
      simp only [hv, Option.isSome_none, Bool.false_eq_true, if_false] at hserve ⊢
      have hsl := errorLogs_startLogger w cfg0
      generalize startLogger w cfg0 = sl at hsl hserve ⊢
      rcases sl with ⟨cfg, res, steps⟩
      simp only at hsl
      cases res with
      | error err => simp at hserve
      | ok logger =>
        simp only at hserve ⊢
        cases hs : (StartStorage w.database cfg Storage.zero logger).2.1.isSome with
        | true => simp [hs] at hserve
        | false =>
          simp only [hs, Bool.false_eq_true, if_false] at hserve
          cases hi : (InitRouter w.api (StartStorage w.database cfg Storage.zero logger).1 cfg
              logger).2.1.isSome with
          | true => simp [hi] at hserve
          | false =>
            obtain ⟨pre, hpre, herr⟩ := runWithLogger_serving w cfg logger hs hi
            rw [hpre]
            refine ⟨[.stdLog "Server starting", .LoadConfig] ++ (warned.map Step.stdLog).toList
              ++ [.Validate]
              ++ [.stdLog (if cfg0.Server.DevMode then "Starting server in development mode"
                  else "Starting server in production mode"), .NotifyContext]
              ++ steps ++ pre, logger, ?_, ?_⟩
            · simp [List.append_assoc]
            · simp only [errorLogs_append, hw, hsl, herr]
              simp [errorLogs]

theorem fatal_ne_shutdown_msg (x y : String) :
    "Fatal server error listening to API requests:" ++ x
      ≠ "Error calling server Shutdown(): " ++ y := by
  intro h
  have h2 := congrArg String.data h
  simp only [String.data_append] at h2
  have h3 := congrArg List.head? h2
  simp at h3

/-- The error-level log lines of `run` when every bootstrap step succeeds are
those of its `select`. -/
theorem errorLogs_run_serving (w : World) (hserve : failedStep w = none) :
    errorLogs (run w).2 = errorLogs (awaitShutdown w [] shutdownCtx) := by
  obtain ⟨pre, logger, htrace, hpre⟩ := run_serving_trace w hserve
  rw [htrace]
  simp only [errorLogs_append, hpre, errorLogs_deferredLoggerClose, errorLogs_awaitShutdown]
  simp [errorLogs]

end main

namespace main

open config database api

/-- C11: when every bootstrap step succeeds and the `select` of `run` receives
`err` from the channel `serverErrors`, the line `Fatal server error listening
to API requests:` followed by the text of `err` is logged at level `Error` if
and only if `err` is not the sentinel `http.ErrServerClosed`; in both cases
`echoRouter.Shutdown` is called exactly once, with the context
`context.WithTimeout(context.Background(), 10*time.Second)`. -/
theorem run_listener_error_shutdown (w : World) (err : Option GoError)
    (hserve : failedStep w = none) (htrig : w.trigger = .serverErrors err) :
    (("Fatal server error listening to API requests:" ++ sprintError err) ∈ errorLogs (run w).2
      ↔ err ≠ some ErrServerClosed) ∧
    shutdownCalls (run w).2 = [.WithTimeout .Background (10 * 1000000000)] := by
  refine ⟨?_, ?_⟩
  · rw [errorLogs_run_serving w hserve, errorLogs_awaitShutdown, htrig]
    by_cases he : err = some ErrServerClosed
    · simp only [he, ne_eq, not_true_eq_false, if_false, List.nil_append, iff_false]
      cases w.Shutdown shutdownCtx with
      | none => simp
      | some err1 =>
        simp only [List.mem_singleton]
        exact fatal_ne_shutdown_msg _ _
    · simp [he]
  · have h := ((run_spec w).2.2.2.2.2 hserve).2
    rw [htrig] at h
    simp only at h
    have hctx : shutdownCtx = .WithTimeout .Background (10 * 1000000000) := rfl
    rw [← hctx, ← shutdownCalls_lifecycle, h]
    cases hd : (servedConfig w).Server.DevMode <;>
      simp [shutdownCalls_append, shutdownCalls]

/-- Witness for C11: when the listener reports the sentinel
`http.ErrServerClosed`, no fatal line is logged and `Shutdown` still gets the
10-second context. -/
theorem run_listener_error_shutdown_witness :
    "Fatal server error listening to API requests:http: Server closed"
      ∉ errorLogs (run { World.healthy with
        trigger := .serverErrors (some ErrServerClosed) }).2 ∧
    shutdownCalls (run { World.healthy with
        trigger := .serverErrors (some ErrServerClosed) }).2
      = [.WithTimeout .Background (10 * 1000000000)] := by
  have h := run_listener_error_shutdown
    { World.healthy with trigger := .serverErrors (some ErrServerClosed) }
    (some ErrServerClosed) (by decide) rfl
  refine ⟨fun hmem => ?_, h.2⟩
  exact (h.1.mp hmem) rfl

/-- C12 (the code at the failing input): every bootstrap step succeeds, the
listener reports an error and `echoRouter.Shutdown` then fails. `Shutdown` is
called once and the line `Could not gracefully shutdown, forcefully closing
server` is logged, but `echoRouter.Close` is never called; with the same
failing `Shutdown` on the signal case, `Close` is called. -/
theorem run_listener_error_never_forces_close :
    failedStep { World.healthy with
      trigger := .serverErrors (some (.ext "net" "accept tcp: use of closed network connection"))
      Shutdown := fun _ => some (.ext "context" "context deadline exceeded") } = none ∧
    shutdownCalls (run { World.healthy with
      trigger := .serverErrors (some (.ext "net" "accept tcp: use of closed network connection"))
      Shutdown := fun _ => some (.ext "context" "context deadline exceeded") }).2
      = [shutdownCtx] ∧
    "Could not gracefully shutdown, forcefully closing server" ∈ warnLogs (run { World.healthy with
      trigger := .serverErrors (some (.ext "net" "accept tcp: use of closed network connection"))
      Shutdown := fun _ => some (.ext "context" "context deadline exceeded") }).2 ∧
    Step.Close ∉ (run { World.healthy with
      trigger := .serverErrors (some (.ext "net" "accept tcp: use of closed network connection"))
      Shutdown := fun _ => some (.ext "context" "context deadline exceeded") }).2 ∧
    Step.Close ∈ (run { World.healthy with
      trigger := .ctxDone
      Shutdown := fun _ => some (.ext "context" "context deadline exceeded") }).2 := by
  decide

/-- The function `run` never returns nil: it returns an error when a bootstrap
step fails and panics in the storage close otherwise. -/
theorem run_never_returns_nil (w : World) : (run w).1 ≠ .returned none := by
  obtain ⟨h1, h2, h3, h4, h5, h6⟩ := run_spec w
  intro hnil
  cases hf : failedStep w with
  | none =>
    rw [(h6 hf).1] at hnil
    cases hnil
  | some b =>
    obtain ⟨err, herr⟩ := (exists_returned_error_iff w).mpr (by rw [hf]; simp)
    rw [herr] at hnil
    cases hnil

/-- C13 (the code at the failing input): every bootstrap step succeeds, the
listener reports an error, and `Shutdown` and `Close` would both fail. `run`
does not return nil: it panics when it calls `CloseConns` on the nil
`Conns.Close`, and the process ends with status 2. On a storage struct whose
handles are present the same closing code returns nil even when both close
calls fail. -/
theorem run_teardown_panics :
    failedStep { World.healthy with
      trigger := .serverErrors (some (.ext "net" "accept tcp: too many open files"))
      Shutdown := fun _ => some (.ext "context" "context deadline exceeded")
      Close := some (.ext "net" "close tcp: use of closed network connection") } = none ∧
    (run { World.healthy with
      trigger := .serverErrors (some (.ext "net" "accept tcp: too many open files"))
      Shutdown := fun _ => some (.ext "context" "context deadline exceeded")
      Close := some (.ext "net" "close tcp: use of closed network connection") }).1
      = .panicked nilDereference ∧
    (main { World.healthy with
      trigger := .serverErrors (some (.ext "net" "accept tcp: too many open files"))
      Shutdown := fun _ => some (.ext "context" "context deadline exceeded")
      Close := some (.ext "net" "close tcp: use of closed network connection") }).1 = 2 ∧
    (closeStorage
      { Storage.zero with
        Conns := { Storage.zero.Conns with Close := some ⟨some (.ext "pgx" "pool closed")⟩ }
        Cache := some ⟨some (.ext "redis" "connection refused")⟩ } []).1 = .returned none := by
  decide

end main

namespace main

open config database api

theorem InitRouter_production_fails (x : api.Externals) (db : Storage) (cfg : Config)
    (logger : Logger) (hprod : cfg.Server.DevMode = false) :
    (InitRouter x db cfg logger).2.1.isSome = true := by
  unfold InitRouter
  rcases x.Getrlimit with err | rLimit0
  · rfl
  · simp only
    rcases x.Setrlimit { rLimit0 with Cur := rLimit0.Max / 2 } with _ | err
    · simp [initSessionStore, hprod]
    · rfl

theorem startLogger_DevMode (w : World) (cfg : Config) :
    (startLogger w cfg).1.Server.DevMode = cfg.Server.DevMode := by
  unfold startLogger
  simp only
  cases hd : cfg.Server.DevMode <;> (split <;> (try split)) <;> simp [hd]

/-- With `DevMode` false in the configuration `run` works with, a bootstrap
step fails: at the latest `InitRouter`, in `initSessionStore`. -/
theorem failedStep_of_production (w : World) (hprod : (servedConfig w).Server.DevMode = false) :
    failedStep w ≠ none := by
  unfold servedConfig at hprod
  unfold failedStep
  simp only
  split
  · simp
  · split
    · simp
    · have hdev := startLogger_DevMode w (LoadConfig w.config w.vars Config.zero).1
      generalize startLogger w (LoadConfig w.config w.vars Config.zero).1 = sl at hprod hdev ⊢
      rcases sl with ⟨cfg, res, steps⟩
      cases res with
      | error err => simp
      | ok logger =>
        simp only at hprod ⊢
        split
        · simp
        · rw [InitRouter_production_fails w.api _ cfg logger hprod]
          simp

theorem no_listener_of_failedStep (w : World) (hfail : failedStep w ≠ none) (addr : String) :
    Step.goStart addr ∉ (run w).2 ∧ Step.goStartAutoTLS addr ∉ (run w).2 := by
  obtain ⟨h1, h2, h3, h4, h5, _⟩ := run_spec w
  rw [← mem_lifecycle _ _ (show isLifecycle (.goStart addr) = true from rfl),
    ← mem_lifecycle _ _ (show isLifecycle (.goStartAutoTLS addr) = true from rfl)]
  cases hf : failedStep w with
  | none => exact absurd hf hfail
  | some b =>
    cases b
    · rw [(h1 hf).2]; simp
    · rw [(h2 hf).2]; simp
    · rw [(h3 hf).2]; simp
    · rw [(h4 hf).2]; simp
    · rw [(h5 hf).2]; simp

/-- C14 (amended): `run` starts a listener in development mode only. When
every bootstrap step succeeds, `DevMode` is true and `run` launches the
plaintext listener (`Start`) on `host:port` and never `StartAutoTLS`. With
`DevMode` false a bootstrap step always fails (at the latest `InitRouter`, whose
`initSessionStore` returns an error in production mode), `run` returns an error
and launches neither `Start` nor `StartAutoTLS`. -/
theorem run_listener_by_mode (w : World) :
    (failedStep w = none →
      (servedConfig w).Server.DevMode = true ∧
      Step.goStart ((servedConfig w).Server.Host ++ ":"
        ++ toString (servedConfig w).Server.Port) ∈ (run w).2 ∧
      ∀ addr, Step.goStartAutoTLS addr ∉ (run w).2) ∧
    ((servedConfig w).Server.DevMode = false →
      failedStep w ≠ none ∧ (∃ err, (run w).1 = .returned (some err)) ∧
      ∀ addr, Step.goStart addr ∉ (run w).2 ∧ Step.goStartAutoTLS addr ∉ (run w).2) := by
  refine ⟨fun hserve => ?_, fun hprod => ?_⟩
  · have hdev : (servedConfig w).Server.DevMode = true := by
      cases hd : (servedConfig w).Server.DevMode with
      | true => rfl
      | false => exact absurd hserve (failedStep_of_production w hd)
    have h := ((run_spec w).2.2.2.2.2 hserve).2
    rw [hdev] at h
    simp only [if_true] at h
    refine ⟨hdev, ?_, fun addr => ?_⟩
    · rw [← mem_lifecycle _ _ (show isLifecycle (.goStart _) = true from rfl), h]
      simp
    · rw [← mem_lifecycle _ _ (show isLifecycle (.goStartAutoTLS addr) = true from rfl), h]
      cases w.trigger <;> cases (w.Shutdown shutdownCtx).isSome <;> simp
  · have hfail := failedStep_of_production w hprod
    exact ⟨hfail, (exists_returned_error_iff w).mpr hfail,
      fun addr => no_listener_of_failedStep w hfail addr⟩

/-- Witness for C14: in the world where everything succeeds, the
configuration is in development mode and the plaintext listener is launched on
`localhost:7777`. -/
theorem run_listener_by_mode_witness :
    (servedConfig World.healthy).Server.DevMode = true ∧
    Step.goStart "localhost:7777" ∈ (run World.healthy).2 := by
  have h := (run_listener_by_mode World.healthy).1 (by decide)
  exact ⟨h.1, h.2.1⟩

/-- Counterexample to C14 as stated: with `DevMode` false and everything else
succeeding (storage is ready), `InitRouter` fails, `run` stops there and the
TLS listener is not launched. -/
theorem run_production_never_listens :
    failedStep { World.healthy with
      config := config.Externals.fills
        { Config.default with Server := { Config.default.Server with DevMode := false } } }
      = some .InitRouter ∧
    lifecycle (run { World.healthy with
      config := config.Externals.fills
        { Config.default with Server := { Config.default.Server with DevMode := false } } }).2
      = [.LoadConfig, .Validate, .NotifyContext, .startLogger, .StartStorage, .InitRouter,
          .Sync, .logfileClose, .stop] ∧
    Step.goStartAutoTLS "localhost:7777" ∉ (run { World.healthy with
      config := config.Externals.fills
        { Config.default with Server := { Config.default.Server with DevMode := false } } }).2 := by
  decide

end main

/-! ## Theorems: the storage handle -/

namespace database

open config

theorem startPostgres_handlers (x : Externals) (cfg : Config) (stg : Storage) :
    ((startPostgres x cfg stg).2.1 = none →
      ∃ pool : Pool,
        (startPostgres x cfg stg).1.Conns.AccTableOps = some ⟨pool⟩ ∧
        (startPostgres x cfg stg).1.Conns.EvTableOps = some ⟨pool⟩ ∧
        (startPostgres x cfg stg).1.Conns.SocialTableOps = some ⟨pool⟩ ∧
        (startPostgres x cfg stg).1.Conns.MapTableOps = some ⟨pool⟩) ∧
    ((startPostgres x cfg stg).2.1 ≠ none → (startPostgres x cfg stg).1 = stg) := by
  unfold startPostgres
  rcases x.ParseConfig (connStr cfg) with err | poolCfg0
  · simp
  · simp only
    split
    · simp
    · split
      · simp
      · simp

/-- C16: if `StartStorage` returns nil, the four operation sets of the storage
struct have been assigned (handlers on one pool); on every error return
(unsupported type, connection-string parse error, pool-creation error, failed
ping) the four fields are exactly what they were before the call. -/
theorem StartStorage_handlers_iff_nil (x : Externals) (cfg : Config) (storage : Storage)
    (parentLogger : Logger) :
    ((StartStorage x cfg storage parentLogger).2.1 = none →
      ∃ pool : Pool,
        (StartStorage x cfg storage parentLogger).1.Conns.AccTableOps = some ⟨pool⟩ ∧
        (StartStorage x cfg storage parentLogger).1.Conns.EvTableOps = some ⟨pool⟩ ∧
        (StartStorage x cfg storage parentLogger).1.Conns.SocialTableOps = some ⟨pool⟩ ∧
        (StartStorage x cfg storage parentLogger).1.Conns.MapTableOps = some ⟨pool⟩) ∧
    ((StartStorage x cfg storage parentLogger).2.1 ≠ none →
      (StartStorage x cfg storage parentLogger).1.Conns.AccTableOps
        = storage.Conns.AccTableOps ∧
      (StartStorage x cfg storage parentLogger).1.Conns.EvTableOps
        = storage.Conns.EvTableOps ∧
      (StartStorage x cfg storage parentLogger).1.Conns.SocialTableOps
        = storage.Conns.SocialTableOps ∧
      (StartStorage x cfg storage parentLogger).1.Conns.MapTableOps
        = storage.Conns.MapTableOps) := by
  have h := startPostgres_handlers x cfg
    { storage with logger := some (parentLogger ++ [("component", "database")]) }
  unfold StartStorage
  simp only
  split
  · generalize startPostgres x cfg
      { storage with logger := some (parentLogger ++ [("component", "database")]) } = r at h
    rcases r with ⟨storage2, err, steps⟩
    cases err with
    | none =>
      refine ⟨fun _ => ?_, fun hne => ?_⟩
      · exact h.1 rfl
      · exact absurd rfl hne
    | some e =>
      have heq : storage2
          = { storage with logger := some (parentLogger ++ [("component", "database")]) } :=
        h.2 (fun hnil => by cases hnil)
      subst heq
      refine ⟨fun hnil => ?_, fun _ => ⟨rfl, rfl, rfl, rfl⟩⟩
      cases hnil
  · refine ⟨fun hnil => ?_, fun _ => ⟨rfl, rfl, rfl, rfl⟩⟩
    cases hnil

/-- Witness for C16: with a database that answers, the call returns nil and
the account operations are set; with the unsupported type `mysql` the call
fails and the account operations of the zero struct stay nil. -/
theorem StartStorage_handlers_iff_nil_witness :
    (∃ pool : Pool,
      (StartStorage Externals.healthy Config.default Storage.zero []).1.Conns.AccTableOps
        = some ⟨pool⟩) ∧
    (StartStorage Externals.healthy
      { Config.default with Database := { Config.default.Database with DbType := "mysql" } }
      Storage.zero []).1.Conns.AccTableOps = none := by
  refine ⟨?_, ?_⟩
  · obtain ⟨pool, h, _⟩ := (StartStorage_handlers_iff_nil Externals.healthy Config.default
      Storage.zero []).1 (by decide)
    exact ⟨pool, h⟩
  · exact ((StartStorage_handlers_iff_nil Externals.healthy
      { Config.default with Database := { Config.default.Database with DbType := "mysql" } }
      Storage.zero []).2 (by decide)).1

theorem mem_startPostgres_ParseConfig (x : Externals) (cfg : Config) (stg : Storage) :
    Step.ParseConfig (connStr cfg) ∈ (startPostgres x cfg stg).2.2 := by
  unfold startPostgres
  rcases x.ParseConfig (connStr cfg) with err | poolCfg0
  · simp
  · simp only
    split
    · simp
    · split <;> simp

/-- C20: for every database type other than `postgres` and `sql` (the empty
string and other spellings included) `StartStorage` returns the error
`database of type <type> is unsupported` and makes no call to `pgxpool`; for
`postgres` and for `sql` it runs `startPostgres`, which parses the connection
string, and it returns nil exactly when `startPostgres` does. -/
theorem StartStorage_supported_types (x : Externals) (cfg : Config) (storage : Storage)
    (parentLogger : Logger) :
    ((cfg.Database.DbType ≠ "postgres" ∧ cfg.Database.DbType ≠ "sql") →
      (StartStorage x cfg storage parentLogger).2.1
        = some (.errorString ("database of type " ++ cfg.Database.DbType ++ " is unsupported")) ∧
      (∀ s, Step.ParseConfig s ∉ (StartStorage x cfg storage parentLogger).2.2) ∧
      (∀ s n, Step.NewWithConfig s n ∉ (StartStorage x cfg storage parentLogger).2.2) ∧
      Step.Ping ∉ (StartStorage x cfg storage parentLogger).2.2) ∧
    ((cfg.Database.DbType = "postgres" ∨ cfg.Database.DbType = "sql") →
      Step.ParseConfig (connStr cfg) ∈ (StartStorage x cfg storage parentLogger).2.2 ∧
      ((StartStorage x cfg storage parentLogger).2.1 = none ↔
        (startPostgres x cfg
          { storage with logger := some (parentLogger ++ [("component", "database")]) }).2.1
          = none) ∧
      (StartStorage x cfg storage parentLogger).2.1
        ≠ some (.errorString
          ("database of type " ++ cfg.Database.DbType ++ " is unsupported"))) := by
  have hmem := mem_startPostgres_ParseConfig x cfg
    { storage with logger := some (parentLogger ++ [("component", "database")]) }
  unfold StartStorage
  simp only
  refine ⟨fun hne => ?_, fun hs => ?_⟩
  · rw [if_neg (by rintro (h | h); exact hne.1 h; exact hne.2 h)]
    simp
  · rw [if_pos hs]
    generalize startPostgres x cfg
      { storage with logger := some (parentLogger ++ [("component", "database")]) } = r at hmem
    rcases r with ⟨storage2, err, steps⟩
    simp only at hmem
    cases err with
    | none => simp [hmem]
    | some e => simp [hmem, GoError.wrapf]

/-- Witness for C20: the empty type and the spelling `Postgres` are
unsupported; the type `sql` starts the Postgres pool and succeeds when the
database answers. -/
theorem StartStorage_supported_types_witness :
    (StartStorage Externals.healthy
      { Config.default with Database := { Config.default.Database with DbType := "" } }
      Storage.zero []).2.1 = some (.errorString "database of type  is unsupported") ∧
    (StartStorage Externals.healthy
      { Config.default with Database := { Config.default.Database with DbType := "Postgres" } }
      Storage.zero []).2.1 = some (.errorString "database of type Postgres is unsupported") ∧
    (StartStorage Externals.healthy
      { Config.default with Database := { Config.default.Database with DbType := "sql" } }
      Storage.zero []).2.1 = none := by
  refine ⟨?_, ?_, ?_⟩
  · exact ((StartStorage_supported_types Externals.healthy
      { Config.default with Database := { Config.default.Database with DbType := "" } }
      Storage.zero []).1 (by decide)).1
  · exact ((StartStorage_supported_types Externals.healthy
      { Config.default with Database := { Config.default.Database with DbType := "Postgres" } }
      Storage.zero []).1 (by decide)).1
  · exact ((StartStorage_supported_types Externals.healthy
      { Config.default with Database := { Config.default.Database with DbType := "sql" } }
      Storage.zero []).2 (by decide)).2.1.mpr (by decide)

end database

/-! ## Theorems: the waits of `RetryOperation` -/

namespace util

variable {σ ε : Type}

theorem sum_map_mul_two_pow (delay : Int) (n : Nat) :
    ((List.range n).map (fun j => delay * 2 ^ j)).sum = delay * (2 ^ n - 1) := by
  induction n with
  | zero => simp
  | succ n ih =>
    rw [List.range_succ, List.map_append, List.sum_append, ih]
    simp only [List.map_cons, List.map_nil, List.sum_cons, List.sum_nil]
    ring

theorem pairwise_lt_map_mul_two_pow (delay : Int) (hd : 0 < delay) (n : Nat) :
    List.Pairwise (· < ·) ((List.range n).map (fun j => delay * 2 ^ j)) := by
  apply List.Pairwise.map (fun j => delay * 2 ^ j) _ (List.pairwise_lt_range n)
  intro a b hab
  have hpow : (2 : Int) ^ a < 2 ^ b := pow_lt_pow_right₀ (by norm_num) hab
  exact mul_lt_mul_of_pos_left hpow hd

theorem delayAt_eq_of_pos (delay : Int) (hd : 0 < delay) (n j : Nat) (hj : j ≤ n)
    (hn : delay * 2 ^ n < 2 ^ 63) : delayAt delay j = delay * 2 ^ j := by
  apply delayAt_eq_mul_pow
  intro i hi
  have hpow : (2 : Int) ^ i ≤ 2 ^ n := pow_le_pow_right₀ (by norm_num) (by omega)
  have hle : delay * 2 ^ i ≤ delay * 2 ^ n := mul_le_mul_of_nonneg_left hpow (le_of_lt hd)
  have hpos : 0 < delay * 2 ^ i := mul_pos hd (by positivity)
  constructor
  · have : (-2 : Int) ^ 63 ≤ 0 := by norm_num
    omega
  · omega

/-- The waits of `RetryOperation` when the operation fails on its first
`failures` invocations and then either the attempts are used up or the next
invocation succeeds, and no `select` takes the cancellation case. -/
theorem RetryOperation_waits_eq (operation : σ → Option ε × σ) (Error : ε → String)
    (ctxDone : Nat → Bool) (attempts : Int) (failures : Nat) (delay : Int) (s : σ)
    (hf : (failures : Int) ≤ attempts)
    (hfail : ∀ j, j < failures → resultAt operation s j ≠ none)
    (hend : (failures : Int) = attempts ∨ resultAt operation s failures = none)
    (hctx : ∀ i, ctxDone i = false) :
    waits (RetryOperation operation Error ctxDone attempts delay s).trace
      = (List.range failures).map (delayAt delay) := by
  unfold RetryOperation
  by_cases hlt : failures < attempts.toNat
  · rcases hend with hend | hend
    · omega
    · exact (retryLoop_success operation Error ctxDone attempts failures attempts.toNat 0 delay
        none s hlt hfail hend (fun j _ => hctx (0 + j))).2.2.1
  · have heq : attempts.toNat = failures := by omega
    rw [heq]
    cases failures with
    | zero => simp [retryLoop, waits]
    | succ n =>
      exact (retryLoop_exhausted operation Error ctxDone attempts n 0 delay none s hfail
        (fun j _ => hctx (0 + j))).2.2

/-- C17 (amended): when the context is not cancelled, `RetryOperation` waits
once after every failed invocation, the last one included. The wait after the
`i`-th failure is the initial delay after `i - 1` doublings of a
`time.Duration` (an `int64`, so the doubling wraps). For a positive initial
delay `d` whose largest wait `d * 2 ^ (failures - 1)` stays below `2 ^ 63`, the
wait after the `i`-th failure is `d * 2 ^ (i - 1)`, each wait is strictly
longer than the one before, and the waits total `d * (2 ^ failures - 1)`
(`failures = attempts` when every attempt fails). -/
theorem RetryOperation_waits_double (operation : σ → Option ε × σ) (Error : ε → String)
    (ctxDone : Nat → Bool) (attempts : Int) (failures : Nat) (delay : Int) (s : σ)
    (hf : (failures : Int) ≤ attempts)
    (hfail : ∀ j, j < failures → resultAt operation s j ≠ none)
    (hend : (failures : Int) = attempts ∨ resultAt operation s failures = none)
    (hctx : ∀ i, ctxDone i = false)
    (hd : 0 < delay) :
    waits (RetryOperation operation Error ctxDone attempts delay s).trace
      = (List.range failures).map (delayAt delay) ∧
    (waits (RetryOperation operation Error ctxDone attempts delay s).trace).length = failures ∧
    (delay * 2 ^ (failures - 1) < 2 ^ 63 →
      waits (RetryOperation operation Error ctxDone attempts delay s).trace
        = (List.range failures).map (fun j => delay * 2 ^ j) ∧
      List.Pairwise (· < ·) (waits (RetryOperation operation Error ctxDone attempts delay s).trace) ∧
      (waits (RetryOperation operation Error ctxDone attempts delay s).trace).sum
        = delay * (2 ^ failures - 1)) := by
  have h := RetryOperation_waits_eq operation Error ctxDone attempts failures delay s hf hfail
    hend hctx
  refine ⟨h, by rw [h]; simp, fun hn => ?_⟩
  have h2 : waits (RetryOperation operation Error ctxDone attempts delay s).trace
      = (List.range failures).map (fun j => delay * 2 ^ j) := by
    rw [h]
    apply List.map_congr_left
    intro j hj
    have hjf : j < failures := List.mem_range.mp hj
    exact delayAt_eq_of_pos delay hd (failures - 1) j (by omega) hn
  refine ⟨h2, ?_, ?_⟩
  · rw [h2]
    exact pairwise_lt_map_mul_two_pow delay hd failures
  · rw [h2]
    exact sum_map_mul_two_pow delay failures

/-- Witness for C17: three attempts that all fail, with an initial delay of
10ms, wait 10ms, 20ms and 40ms, 70ms in total. -/
theorem RetryOperation_waits_double_witness :
    waits (RetryOperation alwaysFail id (fun _ => false) 3 (10 * Millisecond) 0).trace
      = [10 * Millisecond, 20 * Millisecond, 40 * Millisecond] ∧
    (waits (RetryOperation alwaysFail id (fun _ => false) 3 (10 * Millisecond) 0).trace).sum
      = 70 * Millisecond := by
  have h := RetryOperation_waits_double alwaysFail id (fun _ => false) 3 3 (10 * Millisecond) 0
    (by decide) (fun j _ => by simp [resultAt, alwaysFail]) (Or.inl rfl) (fun _ => rfl)
    (by decide)
  have h3 := h.2.2 (by decide)
  refine ⟨?_, ?_⟩
  · rw [h3.1]
    decide
  · rw [h3.2.2]
    decide

/-- Counterexample to C17 as stated: three attempts that all fail, with the
positive initial delay `2 ^ 62` nanoseconds. The waits handed to `time.After`
are `2 ^ 62`, `-2 ^ 63` and `0`: the second is not `d * 2` and is shorter than
the first, and the total is not `d * (2 ^ 3 - 1)`. -/
theorem RetryOperation_waits_wrap :
    waits (RetryOperation alwaysFail id (fun _ => false) 3 4611686018427387904 0).trace
      = [4611686018427387904, -9223372036854775808, 0] ∧
    (-9223372036854775808 : Int) ≠ 4611686018427387904 * 2 ^ (2 - 1) ∧
    (-9223372036854775808 : Int) < 4611686018427387904 ∧
    (waits (RetryOperation alwaysFail id (fun _ => false) 3 4611686018427387904 0).trace).sum
      ≠ 4611686018427387904 * (2 ^ 3 - 1) := by
  decide

/-- C19: for every `attempts ≥ 1`, if the operation fails on all `attempts`
invocations and the `select` after the last failure is the first to take the
cancellation case, `RetryOperation` returns the cancellation error, not the
error `operation failed after <attempts> attempts`: the result wraps nothing,
although the operation has been invoked `attempts` times. -/
theorem RetryOperation_cancelled_after_last_failure (operation : σ → Option ε × σ)
    (Error : ε → String) (ctxDone : Nat → Bool) (attempts : Int) (delay : Int) (s : σ)
    (ha : 1 ≤ attempts)
    (hfail : ∀ j, j < attempts.toNat → resultAt operation s j ≠ none)
    (hctx : ∀ j, j + 1 < attempts.toNat → ctxDone j = false)
    (hdone : ctxDone (attempts.toNat - 1) = true) :
    (RetryOperation operation Error ctxDone attempts delay s).err
      = some (.errorString "context has cancelled, cancelling operation") ∧
    (∀ last, (RetryOperation operation Error ctxDone attempts delay s).err
      ≠ some (failedAfterError Error attempts (some last))) ∧
    ((RetryOperation operation Error ctxDone attempts delay s).err.bind FmtError.Unwrap
      = none) ∧
    (calls (RetryOperation operation Error ctxDone attempts delay s).trace : Int) = attempts := by
  obtain ⟨n, hn⟩ : ∃ n, attempts.toNat = n + 1 := ⟨attempts.toNat - 1, by omega⟩
  have h := retryLoop_cancelled operation Error ctxDone attempts n attempts.toNat 0 delay none s
    (by omega) (fun j hj => hfail j (by omega))
    (fun j hj => by simpa using hctx j (by omega))
    (by simpa [hn] using hdone)
  obtain ⟨h1, h2, _, _, _⟩ := h
  unfold RetryOperation
  refine ⟨h1, ?_, ?_, ?_⟩
  · intro last
    rw [h1]
    simp [cancelledError, failedAfterError]
  · rw [h1]
    rfl
  · rw [h2]
    omega

/-- Witness for C19: two attempts of an operation that always fails, with the
context cancelled during the wait after the second failure: two calls, and the
cancellation error instead of the error about `2 attempts`. -/
theorem RetryOperation_cancelled_after_last_failure_witness :
    (RetryOperation alwaysFail id (fun i => decide (i = 1)) 2 (10 * Millisecond) 0).err
      = some (.errorString "context has cancelled, cancelling operation") ∧
    (calls (RetryOperation alwaysFail id (fun i => decide (i = 1)) 2
      (10 * Millisecond) 0).trace : Int) = 2 := by
  have h := RetryOperation_cancelled_after_last_failure alwaysFail id (fun i => decide (i = 1)) 2
    (10 * Millisecond) 0 (by decide) (fun j _ => by simp [resultAt, alwaysFail])
    (fun j hj => by
      have hj0 : j = 0 := by
        have h2 : (2 : Int).toNat = 2 := rfl
        omega
      subst hj0
      decide)
    (by decide)
  exact ⟨h.1, h.2.2.2⟩

end util

/-! ## Theorems: the descriptor limit of `InitRouter` -/

namespace api

open config database

/-- C18 (amended): for every pair (soft, hard) read from the OS, `InitRouter`
makes one `Setrlimit` request, for the soft limit `hard / 2` (rounded down) with
the hard limit unchanged; the requested soft limit is not lower than the soft
limit that was read exactly when `soft ≤ hard / 2`. If reading the limit fails,
or setting it fails, `InitRouter` returns an error and the router it returns has
no middleware and no route. -/
theorem InitRouter_descriptor_limit (x : Externals) (db : Storage) (cfg : Config)
    (logger : Logger) :
    (∀ soft hard, x.Getrlimit = .ok ⟨soft, hard⟩ →
      setrlimitCalls (InitRouter x db cfg logger).2.2 = [(hard / 2, hard)] ∧
      (soft ≤ hard / 2 ↔ ∀ p ∈ setrlimitCalls (InitRouter x db cfg logger).2.2, soft ≤ p.1)) ∧
    (∀ err, x.Getrlimit = .error err →
      (InitRouter x db cfg logger).2.1 ≠ none ∧
      setrlimitCalls (InitRouter x db cfg logger).2.2 = [] ∧
      (InitRouter x db cfg logger).1 = Echo.New) ∧
    (∀ soft hard err, x.Getrlimit = .ok ⟨soft, hard⟩ →
      x.Setrlimit ⟨hard / 2, hard⟩ = some err →
      (InitRouter x db cfg logger).2.1 ≠ none ∧
      (InitRouter x db cfg logger).1 = Echo.New) := by
  refine ⟨fun soft hard hget => ?_, fun err hget => ?_, fun soft hard err hget hset => ?_⟩
  · have hcalls : setrlimitCalls (InitRouter x db cfg logger).2.2 = [(hard / 2, hard)] := by
      unfold InitRouter
      rw [hget]
      simp only
      rcases x.Setrlimit ⟨hard / 2, hard⟩ with _ | err
      · cases hd : cfg.Server.DevMode <;>
          simp [initSessionStore, setUpRoutes, setrlimitCalls]
      · simp [setrlimitCalls]
    rw [hcalls]
    simp
  · unfold InitRouter
    rw [hget]
    simp [setrlimitCalls]
  · unfold InitRouter
    rw [hget]
    simp only
    rw [hset]
    simp

/-- Witness for C18: with a soft limit of 1024 and a hard limit of 1048576 the
request is for (524288, 1048576), which raises the soft limit. -/
theorem InitRouter_descriptor_limit_witness :
    setrlimitCalls (InitRouter Externals.healthy Storage.zero Config.default []).2.2
      = [(1048576 / 2, 1048576)] ∧
    (∀ p ∈ setrlimitCalls (InitRouter Externals.healthy Storage.zero Config.default []).2.2,
      1024 ≤ p.1) := by
  have h := (InitRouter_descriptor_limit Externals.healthy Storage.zero Config.default []).1
    1024 1048576 rfl
  exact ⟨h.1, h.2.mp (by decide)⟩

/-- Counterexample to C18 as stated: when the soft limit read equals the hard
limit, 1048576, the request is for a soft limit of 524288, lower than the one
that was read. -/
theorem InitRouter_lowers_soft_limit :
    setrlimitCalls (InitRouter
      { Getrlimit := .ok ⟨1048576, 1048576⟩, Setrlimit := fun _ => none }
      Storage.zero Config.default []).2.2 = [(524288, 1048576)] ∧
    (524288 : Nat) < 1048576 := by
  decide

end api

/-! ## Theorems: `LoadConfig` -/

namespace config

theorem getD_getD_getD {α : Type} (e y : Option α) (d : α) :
    e.getD (y.getD (e.getD d)) = e.getD (y.getD d) := by
  cases e <;> rfl

/-- C15 (amended): with `cleanenv.ReadEnv` and `cleanenv.ReadConfig` as the
spec and the comment of `LoadConfig` describe them, `LoadConfig` applies the
precedence environment variables > YAML file values > struct defaults to every
configuration field other than the two `CfgPaths` fields: when the environment
variables parse (to `ev`) and the YAML file named by `CFG_PATH`, if there is
one, can be read (as `fv`; no file is read when `CFG_PATH` is empty),
`LoadConfig` returns nil and each such field has the value of its environment
variable when that is set, otherwise the value the YAML file gives for it when
the file gives one (whatever that value is), otherwise its `env-default`. The
two `CfgPaths` fields are overwritten by `LoadConfig` after `ReadEnv`: when
`CFG_PATH` is empty, `EnvPath` is `ENV_PATH`, or `config.env` when that is
empty, and `CfgPath` is the empty string, whatever their `env-default`. -/
theorem LoadConfig_precedence (envOf : OsEnv → Except GoError EnvValues)
    (files : String → Except GoError FileValues)
    (godotenvLoad : String → OsEnv → OsEnv × Option GoError) (ParseIP : String → Bool)
    (vars : OsEnv) (servCfg : Config) (ev : EnvValues) (fv : FileValues) :
    let envPath := if Getenv vars "ENV_PATH" = "" then "config.env" else Getenv vars "ENV_PATH"
    let vars1 := (godotenvLoad envPath vars).1
    let cfgPath := Getenv vars1 "CFG_PATH"
    envOf vars1 = .ok ev →
    (if cfgPath = "" then fv = FileValues.none else files cfgPath = .ok fv) →
      (LoadConfig (Externals.cleanenv envOf files godotenvLoad ParseIP) vars servCfg).2.2.1 = none ∧
      (LoadConfig (Externals.cleanenv envOf files godotenvLoad ParseIP) vars servCfg).1.Server.DevMode
        = (ev.Server.DevMode).getD ((fv.Server.DevMode).getD true) ∧
      (LoadConfig (Externals.cleanenv envOf files godotenvLoad ParseIP) vars servCfg).1.Server.Port
        = (ev.Server.Port).getD ((fv.Server.Port).getD 7777) ∧
      (LoadConfig (Externals.cleanenv envOf files godotenvLoad ParseIP) vars servCfg).1.Server.Host
        = (ev.Server.Host).getD ((fv.Server.Host).getD "localhost") ∧
      (LoadConfig (Externals.cleanenv envOf files godotenvLoad ParseIP) vars servCfg).1.Server.LogFile
        = (ev.Server.LogFile).getD ((fv.Server.LogFile).getD "/var/log/junkyard.log") ∧
      (LoadConfig (Externals.cleanenv envOf files godotenvLoad ParseIP) vars servCfg).1.Server.CertFile
        = (ev.Server.CertFile).getD ((fv.Server.CertFile).getD "/some/where/secure") ∧
      (LoadConfig (Externals.cleanenv envOf files godotenvLoad ParseIP) vars servCfg).1.Server.KeyFile
        = (ev.Server.KeyFile).getD ((fv.Server.KeyFile).getD "/some/where/secure") ∧
      (LoadConfig (Externals.cleanenv envOf files godotenvLoad ParseIP) vars servCfg).1.Database.Host
        = (ev.Database.Host).getD ((fv.Database.Host).getD "storage") ∧
      (LoadConfig (Externals.cleanenv envOf files godotenvLoad ParseIP) vars servCfg).1.Database.DbType
        = (ev.Database.DbType).getD ((fv.Database.DbType).getD "postgres") ∧
      (LoadConfig (Externals.cleanenv envOf files godotenvLoad ParseIP) vars servCfg).1.Database.User
        = (ev.Database.User).getD ((fv.Database.User).getD "postgres") ∧
      (LoadConfig (Externals.cleanenv envOf files godotenvLoad ParseIP) vars servCfg).1.Database.Password
        = (ev.Database.Password).getD ((fv.Database.Password).getD "password") ∧
      (LoadConfig (Externals.cleanenv envOf files godotenvLoad ParseIP) vars servCfg).1.Database.DBName
        = (ev.Database.DBName).getD ((fv.Database.DBName).getD "database") ∧
      (LoadConfig (Externals.cleanenv envOf files godotenvLoad ParseIP) vars servCfg).1.Database.ConnPoolSize
        = (ev.Database.ConnPoolSize).getD ((fv.Database.ConnPoolSize).getD 20) ∧
      (LoadConfig (Externals.cleanenv envOf files godotenvLoad ParseIP) vars servCfg).1.Database.Port
        = (ev.Database.Port).getD ((fv.Database.Port).getD 5432) ∧
      (LoadConfig (Externals.cleanenv envOf files godotenvLoad ParseIP) vars servCfg).1.Router.ReadTimeout
        = (ev.Router.ReadTimeout).getD ((fv.Router.ReadTimeout).getD (5 * Second)) ∧
      (LoadConfig (Externals.cleanenv envOf files godotenvLoad ParseIP) vars servCfg).1.Router.WriteTimeout
        = (ev.Router.WriteTimeout).getD ((fv.Router.WriteTimeout).getD (5 * Second)) ∧
      (LoadConfig (Externals.cleanenv envOf files godotenvLoad ParseIP) vars servCfg).1.Logto.Endpoint
        = (ev.Logto.Endpoint).getD ((fv.Logto.Endpoint).getD "") ∧
      (LoadConfig (Externals.cleanenv envOf files godotenvLoad ParseIP) vars servCfg).1.Logto.AppID
        = (ev.Logto.AppID).getD ((fv.Logto.AppID).getD "") ∧
      (LoadConfig (Externals.cleanenv envOf files godotenvLoad ParseIP) vars servCfg).1.Logto.AppSecret
        = (ev.Logto.AppSecret).getD ((fv.Logto.AppSecret).getD "") ∧
      (cfgPath = "" →
        (LoadConfig (Externals.cleanenv envOf files godotenvLoad ParseIP) vars servCfg).1.CfgPaths
          = ⟨envPath, ""⟩) := by
  simp only
  unfold LoadConfig Externals.cleanenv cleanenv.ReadEnv cleanenv.ReadConfig
  simp only
  generalize (if Getenv vars "ENV_PATH" = "" then "config.env" else Getenv vars "ENV_PATH")
    = envPath
  generalize godotenvLoad envPath vars = loaded
  rcases loaded with ⟨vars1, lerr⟩
  simp only
  generalize Getenv vars1 "CFG_PATH" = cfgPath
  intro hev hfv
  rw [hev]
  simp only
  by_cases hempty : cfgPath = ""
  · rw [if_pos hempty] at hfv
    subst hfv
    subst hempty
    simp [EnvValues.over, FileValues.none, ServerValues.over, DatabaseValues.over,
      RouterValues.over, LogtoValues.over, ServerValues.none, DatabaseValues.none,
      RouterValues.none, LogtoValues.none, Config.envDefault]
  · rw [if_neg hempty] at hfv
    rw [if_pos hempty, hfv]
    simp [hempty, EnvValues.over, FileValues.over, ServerValues.over, DatabaseValues.over,
      RouterValues.over, LogtoValues.over, Config.envDefault, getD_getD_getD]

/-- Witness for C15: `CFG_PATH` names a YAML file that gives port 9000 and host
`0.0.0.0`, and the environment sets the port to 8080. The loaded port is 8080
(environment), the host is `0.0.0.0` (file) and the database type is
`postgres` (`env-default`). -/
theorem LoadConfig_precedence_witness :
    (LoadConfig (Externals.cleanenv
        (fun _ => .ok { EnvValues.none with
          Server := { ServerValues.none with Port := some 8080 } })
        (fun _ => .ok { FileValues.none with
          Server := { ServerValues.none with Port := some 9000, Host := some "0.0.0.0" } })
        (fun _ vars => (vars, none)) (fun _ => false))
      (fun key => if key = "CFG_PATH" then some "config/config.yaml" else none)
      Config.zero).2.2.1 = none ∧
    (LoadConfig (Externals.cleanenv
        (fun _ => .ok { EnvValues.none with
          Server := { ServerValues.none with Port := some 8080 } })
        (fun _ => .ok { FileValues.none with
          Server := { ServerValues.none with Port := some 9000, Host := some "0.0.0.0" } })
        (fun _ vars => (vars, none)) (fun _ => false))
      (fun key => if key = "CFG_PATH" then some "config/config.yaml" else none)
      Config.zero).1.Server.Port = 8080 ∧
    (LoadConfig (Externals.cleanenv
        (fun _ => .ok { EnvValues.none with
          Server := { ServerValues.none with Port := some 8080 } })
        (fun _ => .ok { FileValues.none with
          Server := { ServerValues.none with Port := some 9000, Host := some "0.0.0.0" } })
        (fun _ vars => (vars, none)) (fun _ => false))
      (fun key => if key = "CFG_PATH" then some "config/config.yaml" else none)
      Config.zero).1.Server.Host = "0.0.0.0" ∧
    (LoadConfig (Externals.cleanenv
        (fun _ => .ok { EnvValues.none with
          Server := { ServerValues.none with Port := some 8080 } })
        (fun _ => .ok { FileValues.none with
          Server := { ServerValues.none with Port := some 9000, Host := some "0.0.0.0" } })
        (fun _ vars => (vars, none)) (fun _ => false))
      (fun key => if key = "CFG_PATH" then some "config/config.yaml" else none)
      Config.zero).1.Database.DbType = "postgres" := by
  have h := LoadConfig_precedence
    (fun _ => .ok { EnvValues.none with
      Server := { ServerValues.none with Port := some 8080 } })
    (fun _ => .ok { FileValues.none with
      Server := { ServerValues.none with Port := some 9000, Host := some "0.0.0.0" } })
    (fun _ vars => (vars, none)) (fun _ => false)
    (fun key => if key = "CFG_PATH" then some "config/config.yaml" else none)
    Config.zero
    { EnvValues.none with Server := { ServerValues.none with Port := some 8080 } }
    { FileValues.none with
      Server := { ServerValues.none with Port := some 9000, Host := some "0.0.0.0" } }
    rfl (by rw [if_neg (by decide)])
  exact ⟨h.1, h.2.2.1, h.2.2.2.1, h.2.2.2.2.2.2.2.2.1⟩

/-- Counterexample to C15 as stated: neither `ENV_PATH` nor `CFG_PATH` is set
and there is no YAML file, so `cleanenv.ReadEnv` fills both `CfgPaths` fields
with their `env-default` values. The loaded `CfgPaths.CfgPath` is the empty
string, not its `env-default` `config/config.yaml`, and the loaded
`CfgPaths.EnvPath` is `config.env`, not its `env-default` `config/config.env`. -/
theorem LoadConfig_overwrites_CfgPaths :
    (cleanenv.ReadEnv (fun _ => .ok EnvValues.none) (fun _ => none) Config.zero).1.CfgPaths
      = ⟨"config/config.env", "config/config.yaml"⟩ ∧
    (LoadConfig (Externals.cleanenv (fun _ => .ok EnvValues.none)
        (fun _ => .error (.ext "os" "open : no such file or directory"))
        (fun _ vars => (vars, none)) (fun _ => false))
      (fun _ => none) Config.zero).2.2.1 = none ∧
    (LoadConfig (Externals.cleanenv (fun _ => .ok EnvValues.none)
        (fun _ => .error (.ext "os" "open : no such file or directory"))
        (fun _ vars => (vars, none)) (fun _ => false))
      (fun _ => none) Config.zero).1.CfgPaths = ⟨"config.env", ""⟩ ∧
    (LoadConfig (Externals.cleanenv (fun _ => .ok EnvValues.none)
        (fun _ => .error (.ext "os" "open : no such file or directory"))
        (fun _ vars => (vars, none)) (fun _ => false))
      (fun _ => none) Config.zero).1.CfgPaths.CfgPath ≠ "config/config.yaml" := by
  decide

end config
